import Mathlib

/-!
# Verification development for mxl-golang

A shallow embedding of the provider lifecycle orchestrator (sdk.go, with the
provider constructors of traces.go, logs.go and meters.go) and of the zerolog
attribute bridge (logs/zerolog.go), followed by theorems about them.

Go values of type error are Option GoError (none is the nil error); effects on
the outside world are recorded, in order, in an event log carried by the state.
-/

namespace MxlGolang

/-! ## Errors -/

/-- Go error values that are not nil: one made by errors.New, or the joinError
made by errors.Join, which holds the joined errors in order. -/
inductive GoError where
  | new (msg : String)
  | join (errs : List GoError)

/-- The standard library function errors.Join: nil arguments are discarded, the
result is nil when nothing is left, and otherwise a joinError holding the
remaining errors in argument order. -/
def errorsJoin (errs : List (Option GoError)) : Option GoError :=
  match errs.filterMap id with
  | [] => none
  | e :: es => some (GoError.join (e :: es))

/-- The helper joinErrors of utils.go: errors.Join(err, errors.New(msg)). -/
def joinErrors (err : Option GoError) (msg : String) : Option GoError :=
  errorsJoin [err, some (GoError.new msg)]

/-- The error tree relation followed by errors.Is: an error wraps itself, and a
joinError wraps whatever one of its members wraps. -/
inductive Wraps : GoError → GoError → Prop where
  | refl (e : GoError) : Wraps e e
  | join (es : List GoError) (e t : GoError) : e ∈ es → Wraps e t → Wraps (GoError.join es) t

/-! ## Floating-point values -/

/-- A float64 value. A finite value is kept as the rational number it denotes
(the two zeros are one value: the code below treats them alike); the other
values are the two infinities and NaN. Every operation the bridge applies to a
float64 (math.Modf, comparison with zero, in-range conversion to int64) is
exact, so no rounding is involved. -/
inductive Float64 where
  | finite (q : ℚ)
  | posInf
  | negInf
  | nan
deriving DecidableEq

/-! ## Configuration (config.go) -/

/-- The value of a resource attribute: attribute.String, attribute.Int or
attribute.Float64. -/
inductive AttrValue where
  | string (s : String)
  | int (i : Int)
  | float64 (f : Float64)
deriving DecidableEq

/-- The type attribute.KeyValue of the OpenTelemetry attribute package. -/
structure AttrKeyValue where
  key : String
  value : AttrValue
deriving DecidableEq

/-- The struct Config of config.go; the header map is kept as an association
list. -/
structure Config where
  oTLPEndpoint : String
  insecure : Bool
  disableTraces : Bool
  disableMetrics : Bool
  disableLogs : Bool
  authorizationHeader : String
  serviceName : String
  attributes : List AttrKeyValue
  headers : List (String × String)
  useHTTP : Bool
deriving DecidableEq

/-- NewConfig of config.go. -/
def NewConfig : Config :=
  { oTLPEndpoint := "localhost:4317"
    insecure := true
    disableTraces := false
    disableMetrics := false
    disableLogs := false
    authorizationHeader := ""
    serviceName := "example-service"
    attributes := [⟨"service.name", AttrValue.string "example-service"⟩,
                   ⟨"library.language", AttrValue.string "go"⟩]
    headers := []
    useHTTP := false }

/-! ## Channels, exporter options and the outside world -/

/-- The three telemetry channels. -/
inductive Channel where
  | trace
  | log
  | metric
deriving DecidableEq, Repr

/-- The transport of an exporter: the otlp*http or the otlp*grpc package. -/
inductive Transport where
  | http
  | grpc
deriving DecidableEq, Repr

/-- The exporter options the constructors pass to the otlp packages. -/
inductive ExporterOption where
  | withCompressionGzip
  | withCompressor (name : String)
  | withEndpointURL (url : String)
  | withURLPath (path : String)
  | withInsecure
  | withHeaders (headers : List (String × String))
deriving DecidableEq

/-- The observable effects of Init and of the functions it returns. -/
inductive Event where
  | slogWarn (msg : String)
  | setTextMapPropagator
  | resourceNew (attrs : List AttrKeyValue)
  | newProviderCall (ch : Channel)
  | exporterNew (ch : Channel) (tr : Transport) (opts : List ExporterOption)
  | setGlobalProvider (ch : Channel)
  | providerShutdown (ch : Channel)
deriving DecidableEq

/-- What the external libraries answer: the error of resource.New, the error of
each otlp exporter constructor (none is success), and the error returned by the
Shutdown method of the provider of each channel. -/
structure Env where
  resourceNew : List AttrKeyValue → Option GoError
  exporterNew : Channel → Transport → List ExporterOption → Option GoError
  providerShutdown : Channel → Option GoError

/-- The variables of Init captured by its closures, and the event log. Each
entry of shutdownFuncs is the Shutdown method of the provider constructed for
that channel. -/
structure State where
  shutdownFuncs : List Channel
  setupError : Option GoError
  log : List Event

/-! ## Exporter and provider constructors (traces.go, logs.go, meters.go) -/

/-- The option list built by newHTTPTraceExporter. -/
def newHTTPTraceExporterOptions (config : Config) : List ExporterOption :=
  let options := [ExporterOption.withCompressionGzip, ExporterOption.withEndpointURL config.oTLPEndpoint]
  let options := if config.insecure then options ++ [ExporterOption.withInsecure] else options
  let options := if config.headers.length > 0 then options ++ [ExporterOption.withHeaders config.headers] else options
  options

/-- The option list built by newGRPCTraceExporter. -/
def newGRPCTraceExporterOptions (cfg : Config) : List ExporterOption :=
  let options := [ExporterOption.withCompressor "gzip", ExporterOption.withEndpointURL cfg.oTLPEndpoint]
  let options := if cfg.headers.length > 0 then options ++ [ExporterOption.withHeaders cfg.headers] else options
  let options := if cfg.insecure then options ++ [ExporterOption.withInsecure] else options
  options

/-- The option list built by httpLogExporter. -/
def httpLogExporterOptions (cfg : Config) : List ExporterOption :=
  let options := [ExporterOption.withCompressionGzip, ExporterOption.withEndpointURL cfg.oTLPEndpoint,
    ExporterOption.withURLPath "/v1/logs"]
  let options := if cfg.headers.length > 0 then options ++ [ExporterOption.withHeaders cfg.headers] else options
  let options := if cfg.insecure then options ++ [ExporterOption.withInsecure] else options
  options

/-- The option list built by grpcLogExporter. -/
def grpcLogExporterOptions (cfg : Config) : List ExporterOption :=
  let options := [ExporterOption.withCompressor "gzip", ExporterOption.withEndpointURL cfg.oTLPEndpoint]
  let options := if cfg.insecure then options ++ [ExporterOption.withInsecure] else options
  let options := if cfg.headers.length > 0 then options ++ [ExporterOption.withHeaders cfg.headers] else options
  options

/-- The option list built by httpMetricExporter. -/
def httpMetricExporterOptions (cfg : Config) : List ExporterOption :=
  let options := [ExporterOption.withCompressionGzip, ExporterOption.withEndpointURL cfg.oTLPEndpoint,
    ExporterOption.withURLPath "/v1/metrics"]
  let options := if cfg.insecure then options ++ [ExporterOption.withInsecure] else options
  let options := if cfg.headers.length > 0 then options ++ [ExporterOption.withHeaders cfg.headers] else options
  options

/-- The option list built by grpcMetricExporter. -/
def grpcMetricExporterOptions (cfg : Config) : List ExporterOption :=
  let options := [ExporterOption.withCompressor "gzip", ExporterOption.withEndpointURL cfg.oTLPEndpoint]
  let options := if cfg.insecure then options ++ [ExporterOption.withInsecure] else options
  let options := if cfg.headers.length > 0 then options ++ [ExporterOption.withHeaders cfg.headers] else options
  options

/-- The common shape of the six exporter constructors: call the otlp package
with the options, and on failure return the error joined with a message naming
the channel and transport. The result is the error (none: an exporter was
built). -/
def buildExporter (env : Env) (ch : Channel) (tr : Transport) (opts : List ExporterOption)
    (msg : String) (s : State) : Option GoError × State :=
  let s1 := { s with log := s.log ++ [Event.exporterNew ch tr opts] }
  match env.exporterNew ch tr opts with
  | some err => (joinErrors (some err) msg, s1)
  | none => (none, s1)

/-- The function newHTTPTraceExporter of traces.go. -/
def newHTTPTraceExporter (env : Env) (config : Config) (s : State) : Option GoError × State :=
  buildExporter env Channel.trace Transport.http (newHTTPTraceExporterOptions config)
    "failed to setup http trace exporter" s

/-- The function newGRPCTraceExporter of traces.go. -/
def newGRPCTraceExporter (env : Env) (cfg : Config) (s : State) : Option GoError × State :=
  buildExporter env Channel.trace Transport.grpc (newGRPCTraceExporterOptions cfg)
    "failed to setup grpc trace exporter" s

/-- The function httpLogExporter of logs.go. -/
def httpLogExporter (env : Env) (cfg : Config) (s : State) : Option GoError × State :=
  buildExporter env Channel.log Transport.http (httpLogExporterOptions cfg)
    "failed to setup http log exporter" s

/-- The function grpcLogExporter of logs.go. -/
def grpcLogExporter (env : Env) (cfg : Config) (s : State) : Option GoError × State :=
  buildExporter env Channel.log Transport.grpc (grpcLogExporterOptions cfg)
    "failed to setup grpc log exporter" s

/-- The function httpMetricExporter of meters.go. -/
def httpMetricExporter (env : Env) (cfg : Config) (s : State) : Option GoError × State :=
  buildExporter env Channel.metric Transport.http (httpMetricExporterOptions cfg)
    "failed to setup http metric exporter" s

/-- The function grpcMetricExporter of meters.go. -/
def grpcMetricExporter (env : Env) (cfg : Config) (s : State) : Option GoError × State :=
  buildExporter env Channel.metric Transport.grpc (grpcMetricExporterOptions cfg)
    "failed to setup grpc metric exporter" s

/-- The function newTraceProvider of traces.go: the exporter of the configured
transport, then the provider around it. The result is the error (none: the
provider was built). -/
def newTraceProvider (env : Env) (config : Config) (s : State) : Option GoError × State :=
  let s := { s with log := s.log ++ [Event.newProviderCall Channel.trace] }
  if config.useHTTP then newHTTPTraceExporter env config s else newGRPCTraceExporter env config s

/-- The function newLogProvider of logs.go. -/
def newLogProvider (env : Env) (cfg : Config) (s : State) : Option GoError × State :=
  let s := { s with log := s.log ++ [Event.newProviderCall Channel.log] }
  if cfg.useHTTP then httpLogExporter env cfg s else grpcLogExporter env cfg s

/-- The function newMeterProvider of meters.go. -/
def newMeterProvider (env : Env) (cfg : Config) (s : State) : Option GoError × State :=
  let s := { s with log := s.log ++ [Event.newProviderCall Channel.metric] }
  if cfg.useHTTP then httpMetricExporter env cfg s else grpcMetricExporter env cfg s

/-! ## The orchestrator (sdk.go) -/

/-- The loop of the closure shutdown: every callback is called in turn and its
result joined onto the running error. -/
def shutdownLoop (env : Env) : List Channel → Option GoError → List Event → Option GoError × List Event
  | [], err, log => (err, log)
  | cleanupFn :: rest, err, log =>
    shutdownLoop env rest (errorsJoin [err, env.providerShutdown cleanupFn])
      (log ++ [Event.providerShutdown cleanupFn])

/-- The closure shutdown of Init: run the loop over shutdownFuncs, then set
shutdownFuncs to nil. -/
def shutdown (env : Env) (s : State) : Option GoError × State :=
  let r := shutdownLoop env s.shutdownFuncs none s.log
  (r.1, { s with shutdownFuncs := [], log := r.2 })

/-- The closure setupCleaner of Init: setupError = errors.Join(err, shutdown(ctx)). -/
def setupCleaner (env : Env) (err : Option GoError) (s : State) : State :=
  let r := shutdown env s
  { r.2 with setupError := errorsJoin [err, r.1] }

/-- A value of the Go type Cleanup as Init returns it: nil is none; the only
function Init ever returns is its closure shutdown. -/
inductive CleanupFn where
  | shutdown
deriving DecidableEq

/-- The two results of Init, and the state it leaves behind. -/
structure InitResult where
  cleanup : Option CleanupFn
  err : Option GoError
  state : State

/-- The metric block of Init and its final return. -/
def initMetrics (env : Env) (cfg : Config) (s : State) : InitResult :=
  if !cfg.disableMetrics then
    match newMeterProvider env cfg s with
    | (some err, s1) =>
      let s2 := setupCleaner env (some err) s1
      ⟨none, s2.setupError, s2⟩
    | (none, s1) =>
      let s2 := { s1 with shutdownFuncs := s1.shutdownFuncs ++ [Channel.metric] }
      let s3 := { s2 with log := s2.log ++ [Event.setGlobalProvider Channel.metric] }
      ⟨some CleanupFn.shutdown, s3.setupError, s3⟩
  else
    ⟨some CleanupFn.shutdown, s.setupError, s⟩

/-- The log block of Init, followed by the rest. -/
def initLogs (env : Env) (cfg : Config) (s : State) : InitResult :=
  if !cfg.disableLogs then
    match newLogProvider env cfg s with
    | (some err, s1) =>
      let s2 := setupCleaner env (some err) s1
      ⟨none, s2.setupError, s2⟩
    | (none, s1) =>
      let s2 := { s1 with shutdownFuncs := s1.shutdownFuncs ++ [Channel.log] }
      let s3 := { s2 with log := s2.log ++ [Event.setGlobalProvider Channel.log] }
      initMetrics env cfg s3
  else
    initMetrics env cfg s

/-- The trace block of Init, followed by the rest. -/
def initTraces (env : Env) (cfg : Config) (s : State) : InitResult :=
  if !cfg.disableTraces then
    match newTraceProvider env cfg s with
    | (some err, s1) =>
      let s2 := setupCleaner env (some err) s1
      ⟨none, s2.setupError, s2⟩
    | (none, s1) =>
      let s2 := { s1 with shutdownFuncs := s1.shutdownFuncs ++ [Channel.trace] }
      let s3 := { s2 with log := s2.log ++ [Event.setGlobalProvider Channel.trace] }
      initLogs env cfg s3
  else
    initLogs env cfg s

/-- The function Init of sdk.go; a nil Config pointer is none. -/
def Init (env : Env) (cfg : Option Config) : InitResult :=
  let s0 : State := { shutdownFuncs := [], setupError := none, log := [] }
  match cfg with
  | none => ⟨none, some (GoError.new "config cannot be nil"), s0⟩
  | some cfg =>
    if cfg.disableTraces && cfg.disableMetrics && cfg.disableLogs then
      ⟨none, none,
        { s0 with log := s0.log ++ [Event.slogWarn "otel setup skipped as traces, metrics and logs are disabled"] }⟩
    else
      let s1 := { s0 with log := s0.log ++ [Event.setTextMapPropagator] }
      let s2 := { s1 with log := s1.log ++ [Event.resourceNew cfg.attributes] }
      match env.resourceNew cfg.attributes with
      | some err =>
        ⟨none, errorsJoin [some err, some (GoError.new "failed to create resources with attributes")], s2⟩
      | none => initTraces env cfg s2

/-- The outcome of calling a value of type Cleanup: calling nil panics with a
nil dereference; otherwise the function returns its error. -/
inductive CallOutcome where
  | panicNilFunc
  | returned (err : Option GoError) (s : State)

/-- Calling the Cleanup value returned by Init in state s. -/
def callCleanup (env : Env) (f : Option CleanupFn) (s : State) : CallOutcome :=
  match f with
  | none => CallOutcome.panicNilFunc
  | some CleanupFn.shutdown =>
    let r := shutdown env s
    CallOutcome.returned r.1 r.2

/-! ## The zerolog bridge (logs/zerolog.go) -/

/-- Truncation of a rational toward zero. -/
def truncQ (q : ℚ) : Int :=
  if 0 ≤ q then ⌊q⌋ else ⌈q⌉

/-- The standard library function math.Modf: the integer part and the fractional
part, both with the sign of the argument; Modf(±Inf) = ±Inf, NaN and
Modf(NaN) = NaN, NaN. -/
def mathModf : Float64 → Float64 × Float64
  | Float64.finite q => (Float64.finite (truncQ q), Float64.finite (q - truncQ q))
  | Float64.posInf => (Float64.posInf, Float64.nan)
  | Float64.negInf => (Float64.negInf, Float64.nan)
  | Float64.nan => (Float64.nan, Float64.nan)

/-- The Go comparison f == 0.0 on float64: NaN equals nothing. -/
def Float64.eqZero : Float64 → Bool
  | Float64.finite q => decide (q = 0)
  | _ => false

/-- The Go conversion int64(f). A finite value whose truncation fits in 64 bits
converts to that truncation; for every other value the language leaves the
result to the implementation, here the parameter arch. -/
def int64OfFloat64 (arch : Float64 → Int) : Float64 → Int
  | Float64.finite q =>
    if -2 ^ 63 ≤ truncQ q ∧ truncQ q < 2 ^ 63 then truncQ q else arch (Float64.finite q)
  | f => arch f

/-- The dynamic values zerologToOtelAttr receives (Go type any). json.Unmarshal
into a map of any yields bool, float64, string and slices of any; every value
of another dynamic type (nil, a map, an int, ...) only reaches the default case,
where nothing but its rendering by the verb v of fmt.Sprintf is used, so such a
value is kept as that rendering. -/
inductive Value where
  | bool (b : Bool)
  | float64 (f : Float64)
  | string (s : String)
  | array (vs : List Value)
  | other (rendered : String)

/-- The type Value of the OpenTelemetry log package, for the kinds the bridge
builds. -/
inductive LogValue where
  | bool (b : Bool)
  | int64 (i : Int)
  | float64 (f : Float64)
  | string (s : String)
deriving DecidableEq

/-- The type KeyValue of the OpenTelemetry log package. -/
structure LogKeyValue where
  key : String
  value : LogValue
deriving DecidableEq

mutual
/-- The function zerologToOtelAttr of logs/zerolog.go. -/
def zerologToOtelAttr (arch : Float64 → Int) (key : String) : Value → List LogKeyValue
  | Value.bool value => [⟨key, LogValue.bool value⟩]
  | Value.float64 value =>
    if (mathModf value).2.eqZero then
      [⟨key, LogValue.int64 (int64OfFloat64 arch value)⟩]
    else
      [⟨key, LogValue.float64 value⟩]
  | Value.string value => [⟨key, LogValue.string value⟩]
  | Value.array value => zerologToOtelAttrLoop arch key value []
  | Value.other rendered => [⟨key, LogValue.string rendered⟩]
/-- The loop of the slice case: result = append(result, zerologToOtelAttr(key, v)...)
for each element v in order. -/
def zerologToOtelAttrLoop (arch : Float64 → Int) (key : String) : List Value → List LogKeyValue → List LogKeyValue
  | [], result => result
  | v :: rest, result => zerologToOtelAttrLoop arch key rest (result ++ zerologToOtelAttr arch key v)
end

/-- Modelled from the spec: the level constants of the external package
github.com/rs/zerolog (type Level, an 8-bit integer) are not under src/; these
are the values that package declares. -/
def DebugLevel : Int := 0

/-- Modelled from the spec: the zerolog level info. -/
def InfoLevel : Int := 1

/-- Modelled from the spec: the zerolog level warn. -/
def WarnLevel : Int := 2

/-- Modelled from the spec: the zerolog level error. -/
def ErrorLevel : Int := 3

/-- Modelled from the spec: the zerolog level fatal. -/
def FatalLevel : Int := 4

/-- Modelled from the spec: the zerolog level panic. -/
def PanicLevel : Int := 5

/-- Modelled from the spec: the zerolog value for no level. -/
def NoLevel : Int := 6

/-- Modelled from the spec: the zerolog value that disables the logger. -/
def Disabled : Int := 7

/-- Modelled from the spec: the zerolog level trace. -/
def TraceLevel : Int := -1

/-- Modelled from the spec: the severity constants of the external package
go.opentelemetry.io/otel/log (type Severity, an integer) are not under src/;
these are the ordinals that package declares, on the scale
undefined < debug < info < warn < error < fatal-tier-1 < fatal-tier-2. -/
def SeverityUndefined : Int := 0

/-- Modelled from the spec: the severity debug. -/
def SeverityDebug : Int := 5

/-- Modelled from the spec: the severity info. -/
def SeverityInfo : Int := 9

/-- Modelled from the spec: the severity warn. -/
def SeverityWarn : Int := 13

/-- Modelled from the spec: the severity error. -/
def SeverityError : Int := 17

/-- Modelled from the spec: the first fatal severity. -/
def SeverityFatal1 : Int := 21

/-- Modelled from the spec: the second fatal severity. -/
def SeverityFatal2 : Int := 22

/-- The function convertLevel of logs/zerolog.go. -/
def convertLevel (level : Int) : Int :=
  if level = DebugLevel then SeverityDebug
  else if level = InfoLevel then SeverityInfo
  else if level = WarnLevel then SeverityWarn
  else if level = ErrorLevel then SeverityError
  else if level = PanicLevel then SeverityFatal1
  else if level = FatalLevel then SeverityFatal2
  else SeverityUndefined


/-! ## Panics -/

/-- The run-time panics the embedded code can raise. -/
inductive GoPanic where
  | indexOutOfRange
  | reflectOnZeroValue
deriving DecidableEq

/-! ## Config setters (config.go) -/

/-- The Go map assignment m[k] = v on the association list kept for the header
map: the value of an existing key is replaced, a new key is added. -/
def mapSet (m : List (String × String)) (k v : String) : List (String × String) :=
  if m.any (fun p => p.1 == k) then m.map (fun p => if p.1 = k then (k, v) else p)
  else m ++ [(k, v)]

/-- SetHeader of config.go. -/
def SetHeader (c : Config) (header value : String) : Config :=
  { c with headers := mapSet c.headers header value }

/-- SetUseHttpOverGrpc of config.go. -/
def SetUseHttpOverGrpc (c : Config) (useHTTP : Bool) : Config :=
  { c with useHTTP := useHTTP }

/-- SetOTLPEndpoint of config.go. -/
def SetOTLPEndpoint (c : Config) (endpoint : String) : Config :=
  { c with oTLPEndpoint := endpoint }

/-- SetInsecure of config.go. -/
def SetInsecure (c : Config) (insecure : Bool) : Config :=
  { c with insecure := insecure }

/-- SetDisableTraces of config.go. -/
def SetDisableTraces (c : Config) (disable : Bool) : Config :=
  { c with disableTraces := disable }

/-- SetDisableMetrics of config.go. -/
def SetDisableMetrics (c : Config) (disable : Bool) : Config :=
  { c with disableMetrics := disable }

/-- SetDisableLogs of config.go. -/
def SetDisableLogs (c : Config) (disable : Bool) : Config :=
  { c with disableLogs := disable }

/-- SetAuthorizationHeader of config.go. -/
def SetAuthorizationHeader (c : Config) (header : String) : Config :=
  { c with authorizationHeader := header }

/-- SetServiceName of config.go: c.attributes[0] = attribute.String("service.name", name),
an index expression that panics on an empty slice. -/
def SetServiceName (c : Config) (name : String) : Except GoPanic Config :=
  match c.attributes with
  | [] => Except.error GoPanic.indexOutOfRange
  | _ :: rest =>
    Except.ok { c with attributes := ⟨"service.name", AttrValue.string name⟩ :: rest }

/-- The dynamic values SetResourceAttr receives (Go type any): the three types
its type switch names, and some of those it does not. -/
inductive AnyValue where
  | string (s : String)
  | int (i : Int)
  | float64 (f : Float64)
  | bool (b : Bool)
  | int64 (i : Int)
  | float32 (f : Float64)
  | nil
  | other (typeName : String)
deriving DecidableEq

/-- SetResourceAttr of config.go; the second component is what it logs. -/
def SetResourceAttr (c : Config) (key : String) (value : AnyValue) : Config × List Event :=
  match value with
  | AnyValue.string v => ({ c with attributes := c.attributes ++ [⟨key, AttrValue.string v⟩] }, [])
  | AnyValue.int v => ({ c with attributes := c.attributes ++ [⟨key, AttrValue.int v⟩] }, [])
  | AnyValue.float64 v => ({ c with attributes := c.attributes ++ [⟨key, AttrValue.float64 v⟩] }, [])
  | _ => (c, [Event.slogWarn "resource attributes should be of type string or int"])

/-- One call of a chainable setter of Config. -/
inductive SetterCall where
  | setHeader (header value : String)
  | setUseHttpOverGrpc (useHTTP : Bool)
  | setOTLPEndpoint (endpoint : String)
  | setInsecure (insecure : Bool)
  | setDisableTraces (disable : Bool)
  | setDisableMetrics (disable : Bool)
  | setDisableLogs (disable : Bool)
  | setAuthorizationHeader (header : String)
  | setServiceName (name : String)
  | setResourceAttr (key : String) (value : AnyValue)
deriving DecidableEq

/-- The effect of one setter call on the Config. -/
def SetterCall.run (c : Config) : SetterCall → Except GoPanic Config
  | SetterCall.setHeader header value => Except.ok (SetHeader c header value)
  | SetterCall.setUseHttpOverGrpc useHTTP => Except.ok (SetUseHttpOverGrpc c useHTTP)
  | SetterCall.setOTLPEndpoint endpoint => Except.ok (SetOTLPEndpoint c endpoint)
  | SetterCall.setInsecure insecure => Except.ok (SetInsecure c insecure)
  | SetterCall.setDisableTraces disable => Except.ok (SetDisableTraces c disable)
  | SetterCall.setDisableMetrics disable => Except.ok (SetDisableMetrics c disable)
  | SetterCall.setDisableLogs disable => Except.ok (SetDisableLogs c disable)
  | SetterCall.setAuthorizationHeader header => Except.ok (SetAuthorizationHeader c header)
  | SetterCall.setServiceName name => SetServiceName c name
  | SetterCall.setResourceAttr key value => Except.ok (SetResourceAttr c key value).1

/-- A chain of setter calls, applied from left to right; a panic ends it. -/
def runSetters : List SetterCall → Config → Except GoPanic Config
  | [], c => Except.ok c
  | call :: rest, c =>
    match call.run c with
    | Except.error p => Except.error p
    | Except.ok c1 => runSetters rest c1

/-- Whether a setter call is a call of SetServiceName. -/
def SetterCall.isSetServiceName : SetterCall → Bool
  | SetterCall.setServiceName _ => true
  | _ => false

/-! ## The bridge hook (logs/zerolog.go) -/

/-- A context.Context as the bridge sees it: the background context, or one
captured by a log event. -/
inductive Context where
  | background
  | captured (id : Nat)
deriving DecidableEq

/-- Modelled from the spec: the fields of the type Event of the external package
github.com/rs/zerolog that the bridge observes: the accumulated buffer, the
level (set to Disabled when the event is discarded) and the captured context
(none when no context was captured). -/
structure ZEvent where
  buf : String
  level : Int
  ctx : Option Nat
deriving DecidableEq

/-- Modelled from the spec: the method Enabled of the zerolog Event, the enabled
predicate of the bridge: a nil event is not enabled, nor is one whose level is
Disabled. -/
def Enabled : Option ZEvent → Bool
  | none => false
  | some e => decide (e.level ≠ Disabled)

/-- Modelled from the spec: the method GetCtx of the zerolog Event: the captured
context, or the background context when the event is nil or captured none. -/
def GetCtx : Option ZEvent → Context
  | some { ctx := some id, .. } => Context.captured id
  | _ => Context.background

/-- The type Record of the OpenTelemetry log package, for the fields the bridge
sets; a body of none is the empty value. -/
structure Record where
  severity : Int
  body : Option LogValue
  severityText : String
  attributes : List LogKeyValue
deriving DecidableEq

/-- The zero Record, as the composite literal of the hook makes it. -/
def Record.zero : Record :=
  { severity := SeverityUndefined, body := none, severityText := "", attributes := [] }

/-- The observable effects of the bridge: a call of json.Unmarshal on the given
text, and a record emitted to the log sink under a context. -/
inductive BridgeEvent where
  | jsonUnmarshal (data : String)
  | emit (ctx : Context) (r : Record)
deriving DecidableEq

/-- What the external libraries of the bridge answer. The field jsonUnmarshal is
json.Unmarshal of a text into an empty map from string to any: the entries the
map holds after the call, in the order a range loop visits them, and the error
returned (none on success). An error can come with stored entries: a syntax
error is found before anything is stored, but a value that does not fit its Go
type (a number beyond the float64 range) is reported after decoding has gone on
as best it can. The field levelString is the method String of the zerolog Level;
arch is the implementation-dependent part of the conversion to int64. -/
structure BridgeEnv where
  jsonUnmarshal : String → List (String × Value) × Option GoError
  levelString : Int → String
  arch : Float64 → Int

/-- The loop of getZerologAttrs over the decoded map. -/
def getZerologAttrsLoop (arch : Float64 → Int) : List (String × Value) → List LogKeyValue → List LogKeyValue
  | [], attributes => attributes
  | (k, v) :: rest, attributes =>
    getZerologAttrsLoop arch rest (attributes ++ zerologToOtelAttr arch k v)

/-- The function getZerologAttrs of logs/zerolog.go: the buffer of the event,
read by reflection and closed with a brace, is decoded into customProps, the
error of json.Unmarshal is dropped, and every entry customProps then holds is
converted. Reflection on a nil event panics. The second component is the effect
performed. -/
def getZerologAttrs (env : BridgeEnv) (e : Option ZEvent) :
    Except GoPanic (List LogKeyValue × List BridgeEvent) :=
  match e with
  | none => Except.error GoPanic.reflectOnZeroValue
  | some ev =>
    let data := ev.buf ++ "\x7d"
    let customProps := (env.jsonUnmarshal data).1
    Except.ok (getZerologAttrsLoop env.arch customProps [], [BridgeEvent.jsonUnmarshal data])

/-- The hook function installed by AttachZerologToOTel; the result is the list
of effects it performed, or a panic. -/
def hook (env : BridgeEnv) (e : Option ZEvent) (level : Int) (msg : String) :
    Except GoPanic (List BridgeEvent) :=
  if !Enabled e then Except.ok []
  else
    let r := Record.zero
    let r := { r with severity := convertLevel level }
    let r := { r with body := some (LogValue.string msg) }
    let r := { r with severityText := env.levelString level }
    match getZerologAttrs env e with
    | Except.error p => Except.error p
    | Except.ok (attrs, effects) =>
      let r := { r with attributes := r.attributes ++ attrs }
      Except.ok (effects ++ [BridgeEvent.emit (GetCtx e) r])

/-- The records a list of bridge effects emitted, in order. -/
def emittedRecords (effects : List BridgeEvent) : List Record :=
  effects.filterMap fun ev =>
    match ev with
    | BridgeEvent.emit _ r => some r
    | _ => none

mutual
/-- The number of leaves of a value that are not arrays. -/
def Value.leaves : Value → Nat
  | Value.array vs => Value.leavesList vs
  | _ => 1
/-- The number of non-array leaves of the values of a list. -/
def Value.leavesList : List Value → Nat
  | [] => 0
  | v :: rest => v.leaves + Value.leavesList rest
end

/-! ## Vocabulary of the statements -/

/-- The order in which Init attempts the channels. -/
def channelOrder : List Channel := [Channel.trace, Channel.log, Channel.metric]

/-- The channels Init attempts before the given one. -/
def channelsBefore : Channel → List Channel
  | Channel.trace => []
  | Channel.log => [Channel.trace]
  | Channel.metric => [Channel.trace, Channel.log]

/-- The channels Init attempts after the given one. -/
def channelsAfter : Channel → List Channel
  | Channel.trace => [Channel.log, Channel.metric]
  | Channel.log => [Channel.metric]
  | Channel.metric => []

/-- A channel is enabled when its disable flag is not set. -/
def Config.enabled (cfg : Config) : Channel → Bool
  | Channel.trace => !cfg.disableTraces
  | Channel.log => !cfg.disableLogs
  | Channel.metric => !cfg.disableMetrics

/-- The provider constructor of a channel. -/
def newProvider (env : Env) (cfg : Config) : Channel → State → Option GoError × State
  | Channel.trace => newTraceProvider env cfg
  | Channel.log => newLogProvider env cfg
  | Channel.metric => newMeterProvider env cfg

/-- The error the provider constructor of a channel returns (none: success). -/
def constructorError (env : Env) (cfg : Config) (ch : Channel) : Option GoError :=
  (newProvider env cfg ch { shutdownFuncs := [], setupError := none, log := [] }).1

/-- An event is a constructor event of channel ch when it is the call of the
provider constructor of ch or the call of an exporter constructor of ch. -/
def Event.isConstructorOf (ch : Channel) : Event → Bool
  | Event.newProviderCall c => decide (c = ch)
  | Event.exporterNew c _ _ => decide (c = ch)
  | _ => false

/-- The channels whose provider constructor the log shows called, in order. -/
def constructorCalls (log : List Event) : List Channel :=
  log.filterMap fun ev =>
    match ev with
    | Event.newProviderCall c => some c
    | _ => none


/-- Whether an event is a step of the orchestration proper: the call of a
provider constructor or the registration of a provider as global sink. -/
def Event.isOrchestrationStep : Event → Bool
  | Event.newProviderCall _ => true
  | Event.setGlobalProvider _ => true
  | _ => false

/-- The orchestration steps the specification prescribes over a list of
channels, once the resource is built: each enabled channel in turn has its
constructor called; on success the provider is registered and the next channel
follows, on failure nothing more is attempted; a disabled channel is skipped. -/
def expectedSteps (env : Env) (cfg : Config) : List Channel → List Event
  | [] => []
  | ch :: rest =>
    if cfg.enabled ch then
      match constructorError env cfg ch with
      | none => Event.newProviderCall ch :: Event.setGlobalProvider ch :: expectedSteps env cfg rest
      | some _ => [Event.newProviderCall ch]
    else expectedSteps env cfg rest

/-- The events the provider constructor of a channel adds to the log. -/
def constructorLog (env : Env) (cfg : Config) (ch : Channel) : List Event :=
  (newProvider env cfg ch { shutdownFuncs := [], setupError := none, log := [] }).2.log

/-! ## Concrete inputs used by the witnesses -/

/-- An outside world in which every exporter constructor succeeds except the
log exporter, and the trace provider fails to shut down. -/
def envLogFails : Env :=
  { resourceNew := fun _ => none
    exporterNew := fun ch _ _ =>
      match ch with
      | Channel.log => some (GoError.new "connection refused")
      | _ => none
    providerShutdown := fun ch =>
      match ch with
      | Channel.trace => some (GoError.new "trace flush failed")
      | _ => none }

/-- An outside world in which everything is constructed, and the shutdown of the
trace and of the metric provider fails. -/
def envShutdownFails : Env :=
  { resourceNew := fun _ => none
    exporterNew := fun _ _ _ => none
    providerShutdown := fun ch =>
      match ch with
      | Channel.trace => some (GoError.new "trace flush failed")
      | Channel.log => none
      | Channel.metric => some (GoError.new "metric flush failed") }

/-- The default configuration with all three channels disabled. -/
def allDisabledConfig : Config :=
  { NewConfig with disableTraces := true, disableMetrics := true, disableLogs := true }

/-- A bridge environment in which json.Unmarshal rejects every text with a
syntax error, storing nothing. -/
def envUnparseable : BridgeEnv :=
  { jsonUnmarshal := fun _ => ([], some (GoError.new "unexpected end of JSON input"))
    levelString := fun _ => "info"
    arch := fun _ => 0 }

/-- A bridge environment that decodes every text to the map with the entries
n = 42 and tags = [1, 2.5, "x"], visited in this order. -/
def envDecoded : BridgeEnv :=
  { jsonUnmarshal := fun _ =>
      ([("n", Value.float64 (Float64.finite 42)),
        ("tags", Value.array [Value.float64 (Float64.finite 1), Value.float64 (Float64.finite (5 / 2)),
          Value.string "x"])], none)
    levelString := fun _ => "info"
    arch := fun _ => 0 }

/-- An event at level info with a truncated buffer and a captured context. -/
def truncatedEvent : ZEvent :=
  { buf := "\x7b\"level\":", level := InfoLevel, ctx := some 7 }

/-- The same event after an earlier hook has discarded it. -/
def discardedEvent : ZEvent :=
  { buf := "\x7b\"level\":", level := Disabled, ctx := some 7 }

/-- An event at level info whose buffer holds the fields n = 42 and
tags = [1, 2.5, "x"]. -/
def taggedEvent : ZEvent :=
  { buf := "\x7b\"n\":42,\"tags\":[1,2.5,\"x\"]", level := InfoLevel, ctx := some 7 }

/-- An event at level info whose buffer holds, after the level, the raw JSON
number 1e400 under the key b: closed with a brace the text is well-formed JSON,
but the number does not fit a float64. -/
def overflowEvent : ZEvent :=
  { buf := "\x7b\"level\":\"info\",\"b\":1e400", level := InfoLevel, ctx := some 7 }

/-- What json.Unmarshal answers on the closed buffer of overflowEvent: it
reports the number that does not fit, having stored the level and, under b, the
nil value (rendered by fmt as <nil>). -/
def envOverflow : BridgeEnv :=
  { jsonUnmarshal := fun _ =>
      ([("level", Value.string "info"), ("b", Value.other "<nil>")],
        some (GoError.new "json: cannot unmarshal number 1e400 into Go value of type float64"))
    levelString := fun _ => "info"
    arch := fun _ => 0 }

/-! ## Lemmas on errors and on the shutdown loop -/

theorem Wraps.trans {a b c : GoError} (h1 : Wraps a b) (h2 : Wraps b c) : Wraps a c := by
  induction h1 with
  | refl e => exact h2
  | join es e t hmem _ ih => exact Wraps.join es e c hmem (ih h2)

@[simp] theorem errorsJoin_none_none : errorsJoin [none, none] = none := rfl

@[simp] theorem errorsJoin_some_none (a : GoError) :
    errorsJoin [some a, none] = some (GoError.join [a]) := rfl

@[simp] theorem errorsJoin_none_some (b : GoError) :
    errorsJoin [none, some b] = some (GoError.join [b]) := rfl

@[simp] theorem errorsJoin_some_some (a b : GoError) :
    errorsJoin [some a, some b] = some (GoError.join [a, b]) := rfl

theorem errorsJoin_eq_none_iff (x y : Option GoError) :
    errorsJoin [x, y] = none ↔ x = none ∧ y = none := by
  cases x <;> cases y <;> simp

theorem errorsJoin_wraps_left (a : GoError) (y : Option GoError) (E : GoError)
    (h : errorsJoin [some a, y] = some E) : Wraps E a := by
  cases y <;> simp at h <;> subst h <;>
    exact Wraps.join _ a a (by simp) (Wraps.refl a)

theorem errorsJoin_wraps_right (x : Option GoError) (b : GoError) (E : GoError)
    (h : errorsJoin [x, some b] = some E) : Wraps E b := by
  cases x <;> simp at h <;> subst h <;>
    exact Wraps.join _ b b (by simp) (Wraps.refl b)

theorem shutdownLoop_log (env : Env) (fs : List Channel) (err : Option GoError) (log : List Event) :
    (shutdownLoop env fs err log).2 = log ++ fs.map Event.providerShutdown := by
  induction fs generalizing err log with
  | nil => simp [shutdownLoop]
  | cons f rest ih => simp [shutdownLoop, ih]

theorem shutdownLoop_err_log (env : Env) (fs : List Channel) (err : Option GoError)
    (log log' : List Event) :
    (shutdownLoop env fs err log).1 = (shutdownLoop env fs err log').1 := by
  induction fs generalizing err log log' with
  | nil => simp [shutdownLoop]
  | cons f rest ih => simp only [shutdownLoop]; exact ih _ _ _

theorem shutdownLoop_eq_none_iff (env : Env) (fs : List Channel) (err : Option GoError)
    (log : List Event) :
    (shutdownLoop env fs err log).1 = none ↔
      err = none ∧ ∀ f ∈ fs, env.providerShutdown f = none := by
  induction fs generalizing err log with
  | nil => simp [shutdownLoop]
  | cons f rest ih =>
    simp only [shutdownLoop, ih, errorsJoin_eq_none_iff, List.mem_cons, forall_eq_or_imp]
    tauto

theorem shutdownLoop_wraps (env : Env) (fs : List Channel) (err : Option GoError)
    (log : List Event) (E : GoError) (h : (shutdownLoop env fs err log).1 = some E) :
    (∀ e0, err = some e0 → Wraps E e0) ∧
      ∀ f ∈ fs, ∀ e, env.providerShutdown f = some e → Wraps E e := by
  induction fs generalizing err log with
  | nil =>
    simp only [shutdownLoop] at h
    subst h
    simp
    exact Wraps.refl E
  | cons f rest ih =>
    simp only [shutdownLoop] at h
    obtain ⟨hacc, hrest⟩ := ih _ _ h
    refine ⟨?_, ?_⟩
    · intro e0 he0
      subst he0
      cases hj : errorsJoin [some e0, env.providerShutdown f] with
      | none => simp [errorsJoin_eq_none_iff] at hj
      | some J => exact Wraps.trans (hacc J hj) (errorsJoin_wraps_left e0 _ J hj)
    · intro g hg e he
      rcases List.mem_cons.mp hg with rfl | hg'
      · cases hj : errorsJoin [err, env.providerShutdown g] with
        | none => simp [errorsJoin_eq_none_iff, he] at hj
        | some J =>
          rw [he] at hj
          exact Wraps.trans (hacc J (by rw [he]; exact hj)) (errorsJoin_wraps_right err e J hj)
      · exact hrest g hg' e he


/-! ## Lemmas on the provider constructors -/

theorem buildExporter_eq (env : Env) (ch : Channel) (tr : Transport) (opts : List ExporterOption)
    (msg : String) (s : State) :
    buildExporter env ch tr opts msg s =
      ((buildExporter env ch tr opts msg { shutdownFuncs := [], setupError := none, log := [] }).1,
        { s with log := s.log ++
          (buildExporter env ch tr opts msg { shutdownFuncs := [], setupError := none, log := [] }).2.log }) := by
  unfold buildExporter
  cases env.exporterNew ch tr opts <;> simp

theorem newTraceProvider_eq (env : Env) (cfg : Config) (s : State) :
    newTraceProvider env cfg s =
      (constructorError env cfg Channel.trace,
        { s with log := s.log ++ constructorLog env cfg Channel.trace }) := by
  simp only [constructorError, constructorLog, newProvider, newTraceProvider,
    newHTTPTraceExporter, newGRPCTraceExporter]
  split
  · rw [buildExporter_eq]; simp [buildExporter]; split <;> simp
  · rw [buildExporter_eq]; simp [buildExporter]; split <;> simp

theorem newLogProvider_eq (env : Env) (cfg : Config) (s : State) :
    newLogProvider env cfg s =
      (constructorError env cfg Channel.log,
        { s with log := s.log ++ constructorLog env cfg Channel.log }) := by
  simp only [constructorError, constructorLog, newProvider, newLogProvider,
    httpLogExporter, grpcLogExporter]
  split
  · rw [buildExporter_eq]; simp [buildExporter]; split <;> simp
  · rw [buildExporter_eq]; simp [buildExporter]; split <;> simp

theorem newMeterProvider_eq (env : Env) (cfg : Config) (s : State) :
    newMeterProvider env cfg s =
      (constructorError env cfg Channel.metric,
        { s with log := s.log ++ constructorLog env cfg Channel.metric }) := by
  simp only [constructorError, constructorLog, newProvider, newMeterProvider,
    httpMetricExporter, grpcMetricExporter]
  split
  · rw [buildExporter_eq]; simp [buildExporter]; split <;> simp
  · rw [buildExporter_eq]; simp [buildExporter]; split <;> simp

theorem constructorLog_eq (env : Env) (cfg : Config) (ch : Channel) :
    ∃ tr opts, constructorLog env cfg ch = [Event.newProviderCall ch, Event.exporterNew ch tr opts] := by
  cases ch <;>
    simp only [constructorLog, newProvider, newTraceProvider, newLogProvider, newMeterProvider,
      newHTTPTraceExporter, newGRPCTraceExporter, httpLogExporter, grpcLogExporter,
      httpMetricExporter, grpcMetricExporter, buildExporter] <;>
    split <;> split <;> simp


/-! ## Lemmas on Init -/

set_option maxHeartbeats 4000000

theorem init_constructorCalls_ordered (env : Env) (cfg : Config) :
    constructorCalls (Init env (some cfg)).state.log <+: channelOrder.filter cfg.enabled := by
  obtain ⟨trT, optsT, hT⟩ := constructorLog_eq env cfg Channel.trace
  obtain ⟨trL, optsL, hL⟩ := constructorLog_eq env cfg Channel.log
  obtain ⟨trM, optsM, hM⟩ := constructorLog_eq env cfg Channel.metric
  cases hdT : cfg.disableTraces <;> cases hdL : cfg.disableLogs <;> cases hdM : cfg.disableMetrics <;>
    cases hres : env.resourceNew cfg.attributes <;>
    cases heT : constructorError env cfg Channel.trace <;>
    cases heL : constructorError env cfg Channel.log <;>
    cases heM : constructorError env cfg Channel.metric <;>
    simp [Init, initTraces, initLogs, initMetrics, newTraceProvider_eq, newLogProvider_eq,
      newMeterProvider_eq, setupCleaner, shutdown, shutdownLoop_log, hdT, hdL, hdM, hres, heT, heL, heM,
      hT, hL, hM, Config.enabled, constructorCalls, channelOrder]

theorem init_constructor_enabled (env : Env) (cfg : Config) (ch : Channel) :
    ∀ ev ∈ (Init env (some cfg)).state.log, ev.isConstructorOf ch = true → cfg.enabled ch = true := by
  obtain ⟨trT, optsT, hT⟩ := constructorLog_eq env cfg Channel.trace
  obtain ⟨trL, optsL, hL⟩ := constructorLog_eq env cfg Channel.log
  obtain ⟨trM, optsM, hM⟩ := constructorLog_eq env cfg Channel.metric
  cases hdT : cfg.disableTraces <;> cases hdL : cfg.disableLogs <;> cases hdM : cfg.disableMetrics <;>
    cases hres : env.resourceNew cfg.attributes <;>
    cases heT : constructorError env cfg Channel.trace <;>
    cases heL : constructorError env cfg Channel.log <;>
    cases heM : constructorError env cfg Channel.metric <;>
    cases ch <;>
    simp [Init, initTraces, initLogs, initMetrics, newTraceProvider_eq, newLogProvider_eq,
      newMeterProvider_eq, setupCleaner, shutdown, shutdownLoop_log, hdT, hdL, hdM, hres, heT, heL, heM,
      hT, hL, hM, Config.enabled, Event.isConstructorOf]

theorem init_registered_iff (env : Env) (cfg : Config) (ch : Channel) :
    Event.setGlobalProvider ch ∈ (Init env (some cfg)).state.log ↔
      (cfg.enabled ch = true ∧ Event.newProviderCall ch ∈ (Init env (some cfg)).state.log ∧
        constructorError env cfg ch = none) := by
  obtain ⟨trT, optsT, hT⟩ := constructorLog_eq env cfg Channel.trace
  obtain ⟨trL, optsL, hL⟩ := constructorLog_eq env cfg Channel.log
  obtain ⟨trM, optsM, hM⟩ := constructorLog_eq env cfg Channel.metric
  cases hdT : cfg.disableTraces <;> cases hdL : cfg.disableLogs <;> cases hdM : cfg.disableMetrics <;>
    cases hres : env.resourceNew cfg.attributes <;>
    cases heT : constructorError env cfg Channel.trace <;>
    cases heL : constructorError env cfg Channel.log <;>
    cases heM : constructorError env cfg Channel.metric <;>
    cases ch <;>
    simp [Init, initTraces, initLogs, initMetrics, newTraceProvider_eq, newLogProvider_eq,
      newMeterProvider_eq, setupCleaner, shutdown, shutdownLoop_log, hdT, hdL, hdM, hres, heT, heL, heM,
      hT, hL, hM, Config.enabled]

theorem init_called_iff (env : Env) (cfg : Config) (ch : Channel) :
    Event.newProviderCall ch ∈ (Init env (some cfg)).state.log ↔
      (cfg.enabled ch = true ∧ env.resourceNew cfg.attributes = none ∧
        ∀ c ∈ channelsBefore ch, cfg.enabled c = true → constructorError env cfg c = none) := by
  obtain ⟨trT, optsT, hT⟩ := constructorLog_eq env cfg Channel.trace
  obtain ⟨trL, optsL, hL⟩ := constructorLog_eq env cfg Channel.log
  obtain ⟨trM, optsM, hM⟩ := constructorLog_eq env cfg Channel.metric
  cases hdT : cfg.disableTraces <;> cases hdL : cfg.disableLogs <;> cases hdM : cfg.disableMetrics <;>
    cases hres : env.resourceNew cfg.attributes <;>
    cases heT : constructorError env cfg Channel.trace <;>
    cases heL : constructorError env cfg Channel.log <;>
    cases heM : constructorError env cfg Channel.metric <;>
    cases ch <;>
    simp [Init, initTraces, initLogs, initMetrics, newTraceProvider_eq, newLogProvider_eq,
      newMeterProvider_eq, setupCleaner, shutdown, shutdownLoop_log, hdT, hdL, hdM, hres, heT, heL, heM,
      hT, hL, hM, Config.enabled, channelsBefore]

theorem init_steps (env : Env) (cfg : Config) :
    (Init env (some cfg)).state.log.filter Event.isOrchestrationStep =
      match env.resourceNew cfg.attributes with
      | some _ => []
      | none => expectedSteps env cfg channelOrder := by
  obtain ⟨trT, optsT, hT⟩ := constructorLog_eq env cfg Channel.trace
  obtain ⟨trL, optsL, hL⟩ := constructorLog_eq env cfg Channel.log
  obtain ⟨trM, optsM, hM⟩ := constructorLog_eq env cfg Channel.metric
  cases hdT : cfg.disableTraces <;> cases hdL : cfg.disableLogs <;> cases hdM : cfg.disableMetrics <;>
    cases hres : env.resourceNew cfg.attributes <;>
    cases heT : constructorError env cfg Channel.trace <;>
    cases heL : constructorError env cfg Channel.log <;>
    cases heM : constructorError env cfg Channel.metric <;>
    simp [Init, initTraces, initLogs, initMetrics, newTraceProvider_eq, newLogProvider_eq,
      newMeterProvider_eq, setupCleaner, shutdown, shutdownLoop_log, hdT, hdL, hdM, hres, heT, heL, heM,
      hT, hL, hM, Config.enabled, channelOrder, expectedSteps, Event.isOrchestrationStep,
      List.filter_cons, List.filter_append, List.filter_map]


theorem init_failure_shape (env : Env) (cfg : Config) (ch : Channel) (e : GoError)
    (hres : env.resourceNew cfg.attributes = none)
    (hen : cfg.enabled ch = true)
    (hprev : ∀ c ∈ channelsBefore ch, cfg.enabled c = true → constructorError env cfg c = none)
    (hfail : constructorError env cfg ch = some e) :
    (Init env (some cfg)).cleanup = none ∧
    (Init env (some cfg)).err =
      errorsJoin [some e, (shutdownLoop env ((channelsBefore ch).filter cfg.enabled) none []).1] ∧
    (∀ c ∈ (channelsBefore ch).filter cfg.enabled,
      (Init env (some cfg)).state.log.count (Event.providerShutdown c) = 1) ∧
    (∀ c ∈ channelsAfter ch, ∀ ev ∈ (Init env (some cfg)).state.log, ev.isConstructorOf c = false) := by
  obtain ⟨trT, optsT, hT⟩ := constructorLog_eq env cfg Channel.trace
  obtain ⟨trL, optsL, hL⟩ := constructorLog_eq env cfg Channel.log
  obtain ⟨trM, optsM, hM⟩ := constructorLog_eq env cfg Channel.metric
  cases ch <;>
    cases hdT : cfg.disableTraces <;> cases hdL : cfg.disableLogs <;> cases hdM : cfg.disableMetrics <;>
    cases heT : constructorError env cfg Channel.trace <;>
    cases heL : constructorError env cfg Channel.log <;>
    cases heM : constructorError env cfg Channel.metric <;>
    simp [Config.enabled, channelsBefore, hdT, hdL, hdM, heT, heL, heM] at hen hprev hfail <;>
    simp [Init, initTraces, initLogs, initMetrics, newTraceProvider_eq, newLogProvider_eq,
      newMeterProvider_eq, setupCleaner, shutdown, shutdownLoop, hdT, hdL, hdM, hres, heT, heL, heM,
      hT, hL, hM, Config.enabled, Event.isConstructorOf, channelsBefore, channelsAfter, hfail,
      List.count_cons]


theorem init_success_shape (env : Env) (cfg : Config) (f : CleanupFn)
    (h : (Init env (some cfg)).cleanup = some f) :
    (Init env (some cfg)).state.shutdownFuncs = channelOrder.filter cfg.enabled ∧
    (Init env (some cfg)).err = none ∧
    (∀ ch, (Init env (some cfg)).state.log.count (Event.providerShutdown ch) = 0) ∧
    (∀ ch ∈ channelOrder.filter cfg.enabled, constructorError env cfg ch = none) := by
  obtain ⟨trT, optsT, hT⟩ := constructorLog_eq env cfg Channel.trace
  obtain ⟨trL, optsL, hL⟩ := constructorLog_eq env cfg Channel.log
  obtain ⟨trM, optsM, hM⟩ := constructorLog_eq env cfg Channel.metric
  cases hdT : cfg.disableTraces <;> cases hdL : cfg.disableLogs <;> cases hdM : cfg.disableMetrics <;>
    cases hres : env.resourceNew cfg.attributes <;>
    cases heT : constructorError env cfg Channel.trace <;>
    cases heL : constructorError env cfg Channel.log <;>
    cases heM : constructorError env cfg Channel.metric <;>
    simp [Init, initTraces, initLogs, initMetrics, newTraceProvider_eq, newLogProvider_eq,
      newMeterProvider_eq, setupCleaner, shutdown, shutdownLoop_log, hdT, hdL, hdM, hres, heT, heL, heM] at h <;>
    simp [Init, initTraces, initLogs, initMetrics, newTraceProvider_eq, newLogProvider_eq,
      newMeterProvider_eq, setupCleaner, shutdown, shutdownLoop_log, hdT, hdL, hdM, hres, heT, heL, heM,
      hT, hL, hM, Config.enabled, channelOrder, List.count_cons]

theorem channelOrder_filter_nodup (cfg : Config) : (channelOrder.filter cfg.enabled).Nodup :=
  List.Nodup.filter _ (by decide)

theorem shutdown_spec (env : Env) (s : State) :
    (shutdown env s).2.log = s.log ++ s.shutdownFuncs.map Event.providerShutdown ∧
    (shutdown env s).2.shutdownFuncs = [] ∧
    ((shutdown env s).1 = none ↔ ∀ c ∈ s.shutdownFuncs, env.providerShutdown c = none) ∧
    (∀ E, (shutdown env s).1 = some E →
      ∀ c ∈ s.shutdownFuncs, ∀ e, env.providerShutdown c = some e → Wraps E e) := by
  refine ⟨?_, rfl, ?_, ?_⟩
  · simp [shutdown, shutdownLoop_log]
  · simp [shutdown, shutdownLoop_eq_none_iff]
  · intro E hE
    exact (shutdownLoop_wraps env s.shutdownFuncs none s.log E hE).2

/-! ## The orchestrator: claims -/

/-- C1: when resource building succeeded and the first constructor failure
happens at the enabled channel ch (every enabled channel attempted before it, in
the order trace, log, metric, was constructed, and the constructor of ch returns
the error e), Init returns a nil shutdown function and a non-nil error, namely
errors.Join of e and of the error returned by the cleanup run over the providers
constructed so far; that error wraps e and every error a provider shutdown
returned; the shutdown of every provider constructed before the failure is in
the log exactly once; and no constructor of a later channel is called. -/
theorem init_failure_cleans_up (env : Env) (cfg : Config) (ch : Channel) (e : GoError)
    (hres : env.resourceNew cfg.attributes = none)
    (hen : cfg.enabled ch = true)
    (hprev : ∀ c ∈ channelsBefore ch, cfg.enabled c = true → constructorError env cfg c = none)
    (hfail : constructorError env cfg ch = some e) :
    (Init env (some cfg)).cleanup = none ∧
    (Init env (some cfg)).err =
      errorsJoin [some e, (shutdownLoop env ((channelsBefore ch).filter cfg.enabled) none []).1] ∧
    (∃ E, (Init env (some cfg)).err = some E ∧ Wraps E e ∧
      ∀ c ∈ (channelsBefore ch).filter cfg.enabled, ∀ e', env.providerShutdown c = some e' → Wraps E e') ∧
    (∀ c ∈ (channelsBefore ch).filter cfg.enabled,
      (Init env (some cfg)).state.log.count (Event.providerShutdown c) = 1) ∧
    (∀ c ∈ channelsAfter ch, ∀ ev ∈ (Init env (some cfg)).state.log, ev.isConstructorOf c = false) := by
  obtain ⟨h1, h2, h3, h4⟩ := init_failure_shape env cfg ch e hres hen hprev hfail
  refine ⟨h1, h2, ?_, h3, h4⟩
  cases hE : (Init env (some cfg)).err with
  | none => rw [h2] at hE; simp [errorsJoin_eq_none_iff] at hE
  | some E =>
    refine ⟨E, rfl, ?_, ?_⟩
    · rw [h2] at hE
      exact errorsJoin_wraps_left e _ E hE
    · intro c hc e' he'
      rw [h2] at hE
      cases hS : (shutdownLoop env ((channelsBefore ch).filter cfg.enabled) none []).1 with
      | none =>
        have := (shutdownLoop_eq_none_iff env _ none []).mp hS
        rw [this.2 c hc] at he'
        cases he'
      | some S =>
        rw [hS] at hE
        exact Wraps.trans (errorsJoin_wraps_right (some e) S E hE)
          ((shutdownLoop_wraps env _ none [] S hS).2 c hc e' he')


/-- C1 witness: with the default configuration, trace construction succeeding
and log construction failing, Init returns nil and the join of the log failure
with the (failed) trace shutdown, the trace provider was shut down exactly once,
and the metric constructor was never called. -/
theorem init_failure_cleans_up_witness :
    (Init envLogFails (some NewConfig)).cleanup = none ∧
    (Init envLogFails (some NewConfig)).err =
      some (GoError.join
        [GoError.join [GoError.new "connection refused", GoError.new "failed to setup grpc log exporter"],
         GoError.join [GoError.new "trace flush failed"]]) ∧
    (Init envLogFails (some NewConfig)).state.log.count (Event.providerShutdown Channel.trace) = 1 ∧
    (∀ ev ∈ (Init envLogFails (some NewConfig)).state.log, ev.isConstructorOf Channel.metric = false) := by
  have h := init_failure_cleans_up envLogFails NewConfig Channel.log
    (GoError.join [GoError.new "connection refused", GoError.new "failed to setup grpc log exporter"])
    rfl rfl (by intro c hc _; simp [channelsBefore] at hc; subst hc; rfl) rfl
  exact ⟨h.1, h.2.1, h.2.2.2.1 Channel.trace (by simp [channelsBefore, Config.enabled, NewConfig]),
    h.2.2.2.2 Channel.metric (by simp [channelsAfter])⟩

/-- C2: when Init returns a shutdown function, the registry holds the Shutdown
methods of the providers of the enabled channels in the order trace, log,
metric, each once; the first call of the returned function returns, having
called exactly these callbacks in that order (also past those that fail); the
error it returns is nil exactly when every callback returned nil, and otherwise
wraps every error a callback returned; afterwards the registry is empty. -/
theorem shutdown_first_call (env : Env) (cfg : Config) (f : CleanupFn)
    (h : (Init env (some cfg)).cleanup = some f) :
    (Init env (some cfg)).state.shutdownFuncs = channelOrder.filter cfg.enabled ∧
    (Init env (some cfg)).state.shutdownFuncs.Nodup ∧
    ∃ err s', callCleanup env (some f) (Init env (some cfg)).state = CallOutcome.returned err s' ∧
      s'.log = (Init env (some cfg)).state.log ++
        (Init env (some cfg)).state.shutdownFuncs.map Event.providerShutdown ∧
      (err = none ↔ ∀ c ∈ (Init env (some cfg)).state.shutdownFuncs, env.providerShutdown c = none) ∧
      (∀ E, err = some E → ∀ c ∈ (Init env (some cfg)).state.shutdownFuncs,
        ∀ e, env.providerShutdown c = some e → Wraps E e) ∧
      s'.shutdownFuncs = [] := by
  have hs := (init_success_shape env cfg f h).1
  refine ⟨hs, ?_, ?_⟩
  · rw [hs]; exact channelOrder_filter_nodup cfg
  · cases f
    obtain ⟨h1, h2, h3, h4⟩ := shutdown_spec env (Init env (some cfg)).state
    exact ⟨_, _, rfl, h1, h3, h4, h2⟩

/-- C2 witness: all three providers constructed, the trace and metric shutdowns
fail and the log shutdown succeeds; the first call of the returned function
calls the three callbacks in order and returns an error. -/
theorem shutdown_first_call_witness :
    (Init envShutdownFails (some NewConfig)).state.shutdownFuncs =
      [Channel.trace, Channel.log, Channel.metric] ∧
    ∃ err s', callCleanup envShutdownFails (some CleanupFn.shutdown)
        (Init envShutdownFails (some NewConfig)).state = CallOutcome.returned err s' ∧
      s'.log = (Init envShutdownFails (some NewConfig)).state.log ++
        [Event.providerShutdown Channel.trace, Event.providerShutdown Channel.log,
          Event.providerShutdown Channel.metric] ∧
      err ≠ none ∧ s'.shutdownFuncs = [] := by
  have h := shutdown_first_call envShutdownFails NewConfig CleanupFn.shutdown rfl
  obtain ⟨h1, _, err, s', h2, h3, h4, _, h6⟩ := h
  refine ⟨h1, err, s', h2, h3, ?_, h6⟩
  intro hn
  have := h4.mp hn Channel.trace (by rw [h1]; simp [channelOrder, Config.enabled, NewConfig])
  simp [envShutdownFails] at this

/-- C3: when Init returns a shutdown function and its first call has returned
(with whatever error), a second call returns a nil error and leaves the state as
it was, so it calls no provider shutdown; over Init and both calls the shutdown
of each provider is called at most once. -/
theorem shutdown_second_call (env : Env) (cfg : Config) (f : CleanupFn)
    (err1 : Option GoError) (s1 : State)
    (h : (Init env (some cfg)).cleanup = some f)
    (h1 : callCleanup env (some f) (Init env (some cfg)).state = CallOutcome.returned err1 s1) :
    callCleanup env (some f) s1 = CallOutcome.returned none s1 ∧
    (∀ ch, s1.log.count (Event.providerShutdown ch) ≤ 1) := by
  obtain ⟨hs, _, hc, _⟩ := init_success_shape env cfg f h
  cases f
  simp only [callCleanup, CallOutcome.returned.injEq] at h1
  obtain ⟨_, hs1⟩ := h1
  subst hs1
  refine ⟨?_, ?_⟩
  · simp [callCleanup, shutdown, shutdownLoop]
  · intro ch
    have hnd : ((Init env (some cfg)).state.shutdownFuncs.map Event.providerShutdown).Nodup := by
      rw [hs]
      exact List.Nodup.map (fun a b hab => by cases hab; rfl) (channelOrder_filter_nodup cfg)
    simp only [shutdown, shutdownLoop_log, List.count_append, hc ch, zero_add]
    exact List.nodup_iff_count_le_one.mp hnd _

/-- C3 witness: in the run of the C2 witness the first call returned an error,
and the second call returns nil and changes nothing. -/
theorem shutdown_second_call_witness :
    callCleanup envShutdownFails (some CleanupFn.shutdown)
        (shutdown envShutdownFails (Init envShutdownFails (some NewConfig)).state).2 =
      CallOutcome.returned none
        (shutdown envShutdownFails (Init envShutdownFails (some NewConfig)).state).2 ∧
    (shutdown envShutdownFails (Init envShutdownFails (some NewConfig)).state).1 ≠ none := by
  refine ⟨(shutdown_second_call envShutdownFails NewConfig CleanupFn.shutdown _ _ rfl rfl).1, ?_⟩
  intro hn
  have h := (shutdown_spec envShutdownFails (Init envShutdownFails (some NewConfig)).state).2.2.1.mp hn
    Channel.trace (by simp [Init, initTraces, initLogs, initMetrics, newTraceProvider_eq, newLogProvider_eq,
      newMeterProvider_eq, NewConfig, envShutdownFails, constructorError, newProvider, newTraceProvider,
      newLogProvider, newMeterProvider, newGRPCTraceExporter, grpcLogExporter, grpcMetricExporter, buildExporter])
  simp [envShutdownFails] at h

/-- C4: with all three disable flags set, Init returns no error, calls no
constructor and registers nothing (the log holds the warning alone), but the
shutdown function it returns is nil: calling it panics instead of doing
nothing. -/
theorem init_all_disabled_returns_nil_cleanup (env : Env) (cfg : Config)
    (hT : cfg.disableTraces = true) (hM : cfg.disableMetrics = true) (hL : cfg.disableLogs = true) :
    (Init env (some cfg)).err = none ∧
    (Init env (some cfg)).state.log =
      [Event.slogWarn "otel setup skipped as traces, metrics and logs are disabled"] ∧
    (Init env (some cfg)).state.shutdownFuncs = [] ∧
    (Init env (some cfg)).cleanup = none ∧
    callCleanup env (Init env (some cfg)).cleanup (Init env (some cfg)).state = CallOutcome.panicNilFunc := by
  simp [Init, hT, hM, hL, callCleanup]

/-- C4 witness: the default configuration with the three channels disabled. -/
theorem init_all_disabled_returns_nil_cleanup_witness :
    (Init envShutdownFails (some allDisabledConfig)).err = none ∧
    (Init envShutdownFails (some allDisabledConfig)).cleanup = none ∧
    callCleanup envShutdownFails (Init envShutdownFails (some allDisabledConfig)).cleanup
      (Init envShutdownFails (some allDisabledConfig)).state = CallOutcome.panicNilFunc := by
  have h := init_all_disabled_returns_nil_cleanup envShutdownFails allDisabledConfig rfl rfl rfl
  exact ⟨h.1, h.2.2.2.1, h.2.2.2.2⟩

/-- C5: with a nil Config, Init returns a nil shutdown function and a non-nil
error, and nothing has happened by then: the log is empty (no propagator
installed, no resource built, no constructor called, nothing registered) and no
callback is registered. -/
theorem init_nil_config (env : Env) :
    (Init env none).cleanup = none ∧
    (Init env none).err = some (GoError.new "config cannot be nil") ∧
    (Init env none).state.log = [] ∧
    (Init env none).state.shutdownFuncs = [] := by
  simp [Init]

/-- C6: for every Config and all constructor outcomes: the constructor of a
channel is called exactly when the channel is enabled, the resource was built
and every enabled channel before it in the order trace, log, metric was
constructed successfully; the calls and registrations in the log are exactly,
in order, those of that fixed sequence (call, then registration on success, and
nothing after a failure); the constructor calls are, in order, a prefix of the
enabled channels; every constructor event belongs to an enabled channel; and a
provider is registered as the global sink of its channel exactly when the
channel is enabled, its constructor was called, and the constructor succeeded. -/
theorem init_construction_order_and_registration (env : Env) (cfg : Config) :
    constructorCalls (Init env (some cfg)).state.log <+: channelOrder.filter cfg.enabled ∧
    (∀ ch, ∀ ev ∈ (Init env (some cfg)).state.log, ev.isConstructorOf ch = true → cfg.enabled ch = true) ∧
    (∀ ch, Event.setGlobalProvider ch ∈ (Init env (some cfg)).state.log ↔
      (cfg.enabled ch = true ∧ Event.newProviderCall ch ∈ (Init env (some cfg)).state.log ∧
        constructorError env cfg ch = none)) ∧
    (∀ ch, Event.newProviderCall ch ∈ (Init env (some cfg)).state.log ↔
      (cfg.enabled ch = true ∧ env.resourceNew cfg.attributes = none ∧
        ∀ c ∈ channelsBefore ch, cfg.enabled c = true → constructorError env cfg c = none)) ∧
    ((Init env (some cfg)).state.log.filter Event.isOrchestrationStep =
      match env.resourceNew cfg.attributes with
      | some _ => []
      | none => expectedSteps env cfg channelOrder) :=
  ⟨init_constructorCalls_ordered env cfg, init_constructor_enabled env cfg, init_registered_iff env cfg,
    init_called_iff env cfg, init_steps env cfg⟩

/-- C6 witness: with everything enabled and every constructor succeeding, the
three constructors are called and the three providers registered, in the order
trace, log, metric; with the log constructor failing, the trace provider is
constructed and registered, the log constructor is called, and the metric
constructor is not. -/
theorem init_construction_order_and_registration_witness :
    (Init envShutdownFails (some NewConfig)).state.log.filter Event.isOrchestrationStep =
      [Event.newProviderCall Channel.trace, Event.setGlobalProvider Channel.trace,
       Event.newProviderCall Channel.log, Event.setGlobalProvider Channel.log,
       Event.newProviderCall Channel.metric, Event.setGlobalProvider Channel.metric] ∧
    (Init envLogFails (some NewConfig)).state.log.filter Event.isOrchestrationStep =
      [Event.newProviderCall Channel.trace, Event.setGlobalProvider Channel.trace,
       Event.newProviderCall Channel.log] :=
  ⟨(init_construction_order_and_registration envShutdownFails NewConfig).2.2.2.2,
    (init_construction_order_and_registration envLogFails NewConfig).2.2.2.2⟩


/-! ## The bridge: lemmas and claims -/

theorem truncQ_of_fract_eq_zero (q : ℚ) (h : Int.fract q = 0) : ((truncQ q : Int) : ℚ) = q := by
  have hq : ((⌊q⌋ : Int) : ℚ) = q := by
    have := Int.self_sub_floor q
    rw [h] at this
    linarith
  unfold truncQ
  split
  · exact hq
  · rw [← hq, Int.ceil_intCast]

theorem fract_eq_zero_of_truncQ (q : ℚ) (h : q - truncQ q = 0) : Int.fract q = 0 := by
  have hq : q = ((truncQ q : Int) : ℚ) := by linarith
  rw [hq, Int.fract_intCast]

theorem zerologToOtelAttrLoop_eq (arch : Float64 → Int) (key : String) (vs : List Value)
    (result : List LogKeyValue) :
    zerologToOtelAttrLoop arch key vs result =
      result ++ (vs.map (zerologToOtelAttr arch key)).flatten := by
  induction vs generalizing result with
  | nil => simp [zerologToOtelAttrLoop]
  | cons v rest ih => simp [zerologToOtelAttrLoop, ih]

mutual
theorem zerologToOtelAttr_keyed (arch : Float64 → Int) (key : String) :
    ∀ v : Value, ∀ kv ∈ zerologToOtelAttr arch key v, kv.key = key
  | Value.bool b => by simp [zerologToOtelAttr]
  | Value.float64 f => by
    simp only [zerologToOtelAttr]
    split <;> simp
  | Value.string s => by simp [zerologToOtelAttr]
  | Value.other r => by simp [zerologToOtelAttr]
  | Value.array vs => by
    simp only [zerologToOtelAttr]
    exact zerologToOtelAttrLoop_keyed arch key vs [] (by simp)
theorem zerologToOtelAttrLoop_keyed (arch : Float64 → Int) (key : String) :
    ∀ (vs : List Value) (result : List LogKeyValue), (∀ kv ∈ result, kv.key = key) →
      ∀ kv ∈ zerologToOtelAttrLoop arch key vs result, kv.key = key
  | [], result, h => by simpa [zerologToOtelAttrLoop] using h
  | v :: rest, result, h => by
    simp only [zerologToOtelAttrLoop]
    refine zerologToOtelAttrLoop_keyed arch key rest _ ?_
    intro kv hkv
    rcases List.mem_append.mp hkv with h1 | h2
    · exact h kv h1
    · exact zerologToOtelAttr_keyed arch key v kv h2
end


/-- C7: on a finite float64 value v (kept as the rational q it denotes) under
key key: when the fractional part of v is zero the result is the single pair
(key, Int64 n) with n the int64 conversion of v, and n equals v whenever
-2^63 <= v < 2^63; when the fractional part is not zero the result is the single
pair (key, Float64 v) with v unchanged. An infinity or NaN, which math.Modf
gives the fractional part NaN, likewise stays a float. -/
theorem zerologToOtelAttr_float64 (arch : Float64 → Int) (key : String) (q : ℚ) :
    (Int.fract q = 0 →
      zerologToOtelAttr arch key (Value.float64 (Float64.finite q)) =
        [⟨key, LogValue.int64 (int64OfFloat64 arch (Float64.finite q))⟩] ∧
      ((-2 ^ 63 : ℚ) ≤ q ∧ q < 2 ^ 63 → ((int64OfFloat64 arch (Float64.finite q) : Int) : ℚ) = q)) ∧
    (Int.fract q ≠ 0 →
      zerologToOtelAttr arch key (Value.float64 (Float64.finite q)) =
        [⟨key, LogValue.float64 (Float64.finite q)⟩]) ∧
    (∀ f ∈ [Float64.posInf, Float64.negInf, Float64.nan],
      zerologToOtelAttr arch key (Value.float64 f) = [⟨key, LogValue.float64 f⟩]) := by
  refine ⟨fun h => ⟨?_, ?_⟩, fun h => ?_, ?_⟩
  · have ht := truncQ_of_fract_eq_zero q h
    simp [zerologToOtelAttr, mathModf, Float64.eqZero, ht]
  · intro hr
    have ht := truncQ_of_fract_eq_zero q h
    have h1 : (-2 ^ 63 : Int) ≤ truncQ q := by
      have : ((-2 ^ 63 : Int) : ℚ) ≤ ((truncQ q : Int) : ℚ) := by rw [ht]; push_cast; exact hr.1
      exact_mod_cast this
    have h2 : truncQ q < (2 ^ 63 : Int) := by
      have : ((truncQ q : Int) : ℚ) < ((2 ^ 63 : Int) : ℚ) := by rw [ht]; push_cast; exact hr.2
      exact_mod_cast this
    simp only [int64OfFloat64]
    rw [if_pos ⟨h1, h2⟩]
    exact ht
  · have hne : ¬ (q - truncQ q = 0) := fun h0 => h (fract_eq_zero_of_truncQ q h0)
    simp [zerologToOtelAttr, mathModf, Float64.eqZero, hne]
  · intro f hf
    simp only [List.mem_cons, List.mem_singleton, List.not_mem_nil, or_false] at hf
    rcases hf with h | h | h <;> subst h <;> simp [zerologToOtelAttr, mathModf, Float64.eqZero]

/-- C7 witness: 42.0 recovers as the integer 42 and 42.5 as the float 42.5. -/
theorem zerologToOtelAttr_float64_witness :
    zerologToOtelAttr (fun _ => 0) "n" (Value.float64 (Float64.finite 42)) =
        [⟨"n", LogValue.int64 42⟩] ∧
    zerologToOtelAttr (fun _ => 0) "n" (Value.float64 (Float64.finite (85 / 2))) =
        [⟨"n", LogValue.float64 (Float64.finite (85 / 2))⟩] := by
  have h42 : Int.fract (42 : ℚ) = 0 :=
    Int.fract_eq_iff.mpr ⟨le_refl _, by norm_num, ⟨42, by norm_num⟩⟩
  have h425 : Int.fract (85 / 2 : ℚ) ≠ 0 := by
    have hhalf : Int.fract (85 / 2 : ℚ) = 1 / 2 :=
      Int.fract_eq_iff.mpr ⟨by norm_num, by norm_num, ⟨42, by norm_num⟩⟩
    rw [hhalf]
    norm_num
  have h1 := (zerologToOtelAttr_float64 (fun _ => 0) "n" 42).1 h42
  have h2 := (zerologToOtelAttr_float64 (fun _ => 0) "n" (85 / 2)).2.1 h425
  refine ⟨?_, h2⟩
  have h3 := h1.2 ⟨by norm_num, by norm_num⟩
  rw [h1.1]
  have h4 : int64OfFloat64 (fun _ => 0) (Float64.finite 42) = 42 := by exact_mod_cast h3
  rw [h4]

/-- C8: under every key, an array value yields the concatenation, in element
order, of what its elements yield, and every pair of every result carries the
key. -/
theorem zerologToOtelAttr_array (arch : Float64 → Int) (key : String) (vs : List Value) :
    zerologToOtelAttr arch key (Value.array vs) =
      (vs.map (zerologToOtelAttr arch key)).flatten ∧
    ∀ kv ∈ zerologToOtelAttr arch key (Value.array vs), kv.key = key := by
  refine ⟨?_, zerologToOtelAttr_keyed arch key (Value.array vs)⟩
  simp [zerologToOtelAttr, zerologToOtelAttrLoop_eq]

/-- C8 witness: the decoded array [1, 2.5, "x"] under key k yields exactly three
pairs keyed k: the int 1, the float 2.5 and the string x. -/
theorem zerologToOtelAttr_array_witness :
    zerologToOtelAttr (fun _ => 0) "k"
        (Value.array [Value.float64 (Float64.finite 1), Value.float64 (Float64.finite (5 / 2)),
          Value.string "x"]) =
      [⟨"k", LogValue.int64 1⟩, ⟨"k", LogValue.float64 (Float64.finite (5 / 2))⟩,
        ⟨"k", LogValue.string "x"⟩] := by
  rw [(zerologToOtelAttr_array (fun _ => 0) "k" _).1]
  simp [zerologToOtelAttr, mathModf, Float64.eqZero, int64OfFloat64, truncQ]
  norm_num

/-- C9: convertLevel maps debug, info, warn, error, panic, fatal to Debug, Info,
Warn, Error, Fatal1, Fatal2 in this order, and these six severities are strictly
increasing along that sequence, hence pairwise distinct, the two fatal tiers
both above Error. -/
theorem convertLevel_strictly_increasing :
    [DebugLevel, InfoLevel, WarnLevel, ErrorLevel, PanicLevel, FatalLevel].map convertLevel =
      [SeverityDebug, SeverityInfo, SeverityWarn, SeverityError, SeverityFatal1, SeverityFatal2] ∧
    List.Pairwise (fun a b => a < b)
      ([DebugLevel, InfoLevel, WarnLevel, ErrorLevel, PanicLevel, FatalLevel].map convertLevel) ∧
    ([DebugLevel, InfoLevel, WarnLevel, ErrorLevel, PanicLevel, FatalLevel].map convertLevel).Nodup ∧
    convertLevel ErrorLevel < convertLevel PanicLevel ∧
    convertLevel ErrorLevel < convertLevel FatalLevel ∧
    convertLevel PanicLevel ≠ convertLevel FatalLevel := by
  decide

/-- C10: a level that is none of debug, info, warn, error, panic, fatal (any
other integer, among them trace, no-level and disabled) maps to Undefined; each
of the six recognised levels maps to a severity other than Undefined and above
it; Undefined is strictly below the severity of debug. -/
theorem convertLevel_undefined (level : Int) :
    (level ∉ [DebugLevel, InfoLevel, WarnLevel, ErrorLevel, PanicLevel, FatalLevel] →
      convertLevel level = SeverityUndefined) ∧
    (level ∈ [DebugLevel, InfoLevel, WarnLevel, ErrorLevel, PanicLevel, FatalLevel] →
      convertLevel level ≠ SeverityUndefined ∧ SeverityUndefined < convertLevel level) ∧
    convertLevel TraceLevel = SeverityUndefined ∧
    convertLevel NoLevel = SeverityUndefined ∧
    convertLevel Disabled = SeverityUndefined ∧
    SeverityUndefined < convertLevel DebugLevel := by
  refine ⟨?_, ?_, by decide, by decide, by decide, by decide⟩
  · intro h
    simp only [List.mem_cons, List.mem_singleton, List.not_mem_nil, or_false, not_or] at h
    obtain ⟨h1, h2, h3, h4, h5, h6⟩ := h
    simp [convertLevel, h1, h2, h3, h4, h5, h6]
  · intro h
    simp only [List.mem_cons, List.mem_singleton, List.not_mem_nil, or_false] at h
    rcases h with h | h | h | h | h | h <;> subst h <;> decide

/-- C10 witness: the out-of-range level 100 maps to Undefined, and the level
warn does not. -/
theorem convertLevel_undefined_witness :
    convertLevel 100 = SeverityUndefined ∧ convertLevel WarnLevel ≠ SeverityUndefined :=
  ⟨(convertLevel_undefined 100).1 (by decide),
    ((convertLevel_undefined WarnLevel).2.1 (by decide)).1⟩


/-! ## The bridge hook: claims -/

theorem hook_never_panics (env : BridgeEnv) (e : Option ZEvent) (level : Int) (msg : String) :
    ∃ effects, hook env e level msg = Except.ok effects := by
  cases e with
  | none => exact ⟨[], by simp [hook, Enabled]⟩
  | some ev =>
    by_cases h : Enabled (some ev) = true
    · simp [hook, h, getZerologAttrs]
    · simp [hook, h]

/-- C11 counterexample: an enabled event at level info whose buffer holds the
raw number 1e400: json.Unmarshal returns an error on the closed buffer, yet the
map it was decoding into holds two entries by then, and getZerologAttrs, which
drops the error, returns two attributes, not the empty list; the record emitted
by the hook carries them. -/
theorem getZerologAttrs_unmarshal_error_counterexample :
    (envOverflow.jsonUnmarshal (overflowEvent.buf ++ "\x7d")).2 ≠ none ∧
    Enabled (some overflowEvent) = true ∧
    getZerologAttrs envOverflow (some overflowEvent) =
      Except.ok ([⟨"level", LogValue.string "info"⟩, ⟨"b", LogValue.string "<nil>"⟩],
        [BridgeEvent.jsonUnmarshal (overflowEvent.buf ++ "\x7d")]) ∧
    getZerologAttrs envOverflow (some overflowEvent) ≠
      Except.ok ([], [BridgeEvent.jsonUnmarshal (overflowEvent.buf ++ "\x7d")]) ∧
    hook envOverflow (some overflowEvent) overflowEvent.level "hello" =
      Except.ok [BridgeEvent.jsonUnmarshal (overflowEvent.buf ++ "\x7d"),
        BridgeEvent.emit (Context.captured 7)
          { severity := SeverityInfo, body := some (LogValue.string "hello"),
            severityText := "info",
            attributes := [⟨"level", LogValue.string "info"⟩, ⟨"b", LogValue.string "<nil>"⟩] }] := by
  have hg : getZerologAttrs envOverflow (some overflowEvent) =
      Except.ok ([⟨"level", LogValue.string "info"⟩, ⟨"b", LogValue.string "<nil>"⟩],
        [BridgeEvent.jsonUnmarshal (overflowEvent.buf ++ "\x7d")]) := by
    simp [getZerologAttrs, envOverflow, getZerologAttrsLoop, zerologToOtelAttr]
  refine ⟨by simp [envOverflow], by decide, hg, ?_, ?_⟩
  · rw [hg]
    simp
  · have hen : Enabled (some overflowEvent) = true := by decide
    have hh : hook envOverflow (some overflowEvent) overflowEvent.level "hello" =
        Except.ok [BridgeEvent.jsonUnmarshal (overflowEvent.buf ++ "\x7d"),
          BridgeEvent.emit (GetCtx (some overflowEvent))
            { severity := convertLevel overflowEvent.level, body := some (LogValue.string "hello"),
              severityText := envOverflow.levelString overflowEvent.level,
              attributes := [⟨"level", LogValue.string "info"⟩, ⟨"b", LogValue.string "<nil>"⟩] }] := by
      simp [hook, hen, hg, Record.zero]
    rw [hh]
    rfl

/-- C11 (amended): for every log event whose buffer closed with a brace makes
json.Unmarshal return an error, getZerologAttrs returns without a panic the
attributes recovered from the entries json.Unmarshal stored before it reported
the error, hence the empty list when it stored none (as on malformed JSON); if
the event passes the enabled check, the hook emits exactly one record, with the
message as body, the mapped severity and these attributes; and the hook never
panics, on any event. -/
theorem hook_unmarshal_error (env : BridgeEnv) (e : ZEvent) (level : Int) (msg : String)
    (err : GoError) (hbad : (env.jsonUnmarshal (e.buf ++ "\x7d")).2 = some err) :
    getZerologAttrs env (some e) =
      Except.ok (getZerologAttrsLoop env.arch (env.jsonUnmarshal (e.buf ++ "\x7d")).1 [],
        [BridgeEvent.jsonUnmarshal (e.buf ++ "\x7d")]) ∧
    ((env.jsonUnmarshal (e.buf ++ "\x7d")).1 = [] →
      getZerologAttrs env (some e) = Except.ok ([], [BridgeEvent.jsonUnmarshal (e.buf ++ "\x7d")])) ∧
    (Enabled (some e) = true →
      hook env (some e) level msg =
        Except.ok [BridgeEvent.jsonUnmarshal (e.buf ++ "\x7d"),
          BridgeEvent.emit (GetCtx (some e))
            { severity := convertLevel level, body := some (LogValue.string msg),
              severityText := env.levelString level,
              attributes := getZerologAttrsLoop env.arch (env.jsonUnmarshal (e.buf ++ "\x7d")).1 [] }] ∧
      ∃ effects, hook env (some e) level msg = Except.ok effects ∧
        emittedRecords effects =
          [{ severity := convertLevel level, body := some (LogValue.string msg),
             severityText := env.levelString level,
             attributes := getZerologAttrsLoop env.arch (env.jsonUnmarshal (e.buf ++ "\x7d")).1 [] }]) ∧
    (∀ (e' : Option ZEvent) (level' : Int) (msg' : String),
      ∃ effects, hook env e' level' msg' = Except.ok effects) := by
  have _herr := hbad
  have hg : getZerologAttrs env (some e) =
      Except.ok (getZerologAttrsLoop env.arch (env.jsonUnmarshal (e.buf ++ "\x7d")).1 [],
        [BridgeEvent.jsonUnmarshal (e.buf ++ "\x7d")]) := by
    simp [getZerologAttrs]
  refine ⟨hg, ?_, ?_, fun e' l' m' => hook_never_panics env e' l' m'⟩
  · intro hnil
    rw [hg, hnil]
    simp [getZerologAttrsLoop]
  · intro hen
    have hh : hook env (some e) level msg =
        Except.ok [BridgeEvent.jsonUnmarshal (e.buf ++ "\x7d"),
          BridgeEvent.emit (GetCtx (some e))
            { severity := convertLevel level, body := some (LogValue.string msg),
              severityText := env.levelString level,
              attributes := getZerologAttrsLoop env.arch (env.jsonUnmarshal (e.buf ++ "\x7d")).1 [] }] := by
      simp [hook, hen, hg, Record.zero]
    exact ⟨hh, _, hh, by simp [emittedRecords]⟩

/-- C11 witness: an enabled event at level info with a truncated buffer, on
which json.Unmarshal reports a syntax error and stores nothing, yields one
record with the body hello, the severity of info and no attributes. -/
theorem hook_unmarshal_error_witness :
    getZerologAttrs envUnparseable (some truncatedEvent) =
      Except.ok ([], [BridgeEvent.jsonUnmarshal (truncatedEvent.buf ++ "\x7d")]) ∧
    hook envUnparseable (some truncatedEvent) truncatedEvent.level "hello" =
      Except.ok [BridgeEvent.jsonUnmarshal (truncatedEvent.buf ++ "\x7d"),
        BridgeEvent.emit (Context.captured 7)
          { severity := SeverityInfo, body := some (LogValue.string "hello"),
            severityText := "info", attributes := [] }] := by
  have h := hook_unmarshal_error envUnparseable truncatedEvent truncatedEvent.level "hello"
    (GoError.new "unexpected end of JSON input") rfl
  exact ⟨h.2.1 rfl, (h.2.2.1 (by decide)).1⟩

/-- C12: for every event (nil included), level and message passed to the hook:
if the enabled predicate is false the hook performs no effect at all, so it
emits no record and decodes nothing; otherwise getZerologAttrs returns some
attributes, and the hook performs that one decoding and then emits exactly one
record, under the context of the event, with body the message, severity
convertLevel of the level, severity text the name of the level, and these
attributes. -/
theorem hook_behaviour (env : BridgeEnv) (e : Option ZEvent) (level : Int) (msg : String) :
    (Enabled e = false → hook env e level msg = Except.ok []) ∧
    (Enabled e = true →
      ∃ attrs effects, getZerologAttrs env e = Except.ok (attrs, effects) ∧
        emittedRecords effects = [] ∧
        hook env e level msg =
          Except.ok (effects ++ [BridgeEvent.emit (GetCtx e)
            { severity := convertLevel level, body := some (LogValue.string msg),
              severityText := env.levelString level, attributes := attrs }]) ∧
        emittedRecords (effects ++ [BridgeEvent.emit (GetCtx e)
            { severity := convertLevel level, body := some (LogValue.string msg),
              severityText := env.levelString level, attributes := attrs }]) =
          [{ severity := convertLevel level, body := some (LogValue.string msg),
             severityText := env.levelString level, attributes := attrs }]) := by
  refine ⟨fun h => by simp [hook, h], fun h => ?_⟩
  cases e with
  | none => simp [Enabled] at h
  | some ev =>
    refine ⟨_, _, rfl, by simp [emittedRecords], ?_, by simp [emittedRecords]⟩
    simp [hook, h, getZerologAttrs, Record.zero]

/-- C12 witness: a discarded event yields no effect; an enabled event whose
buffer decodes to n = 42 and tags = [1, 2.5, "x"] yields one decoding and one
record with four attributes. -/
theorem hook_behaviour_witness :
    hook envDecoded (some discardedEvent) discardedEvent.level "hello" = Except.ok [] ∧
    hook envDecoded (some taggedEvent) taggedEvent.level "hello" =
      Except.ok [BridgeEvent.jsonUnmarshal (taggedEvent.buf ++ "\x7d"),
        BridgeEvent.emit (Context.captured 7)
          { severity := SeverityInfo, body := some (LogValue.string "hello"),
            severityText := "info",
            attributes := [⟨"n", LogValue.int64 42⟩, ⟨"tags", LogValue.int64 1⟩,
              ⟨"tags", LogValue.float64 (Float64.finite (5 / 2))⟩, ⟨"tags", LogValue.string "x"⟩] }] := by
  have h := hook_behaviour envDecoded (some taggedEvent) taggedEvent.level "hello"
  refine ⟨(hook_behaviour envDecoded (some discardedEvent) discardedEvent.level "hello").1
    (by decide), ?_⟩
  obtain ⟨attrs, effects, h1, _, h3, _⟩ := h.2 (by decide)
  rw [h3]
  simp only [getZerologAttrs, Except.ok.injEq, Prod.mk.injEq] at h1
  obtain ⟨ha, he⟩ := h1
  subst ha he
  simp [envDecoded, getZerologAttrsLoop, zerologToOtelAttr, zerologToOtelAttrLoop, mathModf,
    Float64.eqZero, int64OfFloat64, truncQ, GetCtx, taggedEvent, convertLevel, InfoLevel,
    DebugLevel, SeverityInfo]
  norm_num

/-! ## Config setters: claims -/

theorem serviceNameFirst_run (c : Config) (call : SetterCall) (v : AttrValue)
    (rest : List AttrKeyValue) (hc : c.attributes = ⟨"service.name", v⟩ :: rest) :
    ∃ c1, call.run c = Except.ok c1 ∧
      ∃ v1 rest1, c1.attributes = ⟨"service.name", v1⟩ :: rest1 ∧
        (call.isSetServiceName = false → v1 = v) := by
  cases call with
  | setServiceName name =>
    exact ⟨{ c with attributes := ⟨"service.name", AttrValue.string name⟩ :: rest },
      by simp [SetterCall.run, SetServiceName, hc], AttrValue.string name, rest, rfl,
      by simp [SetterCall.isSetServiceName]⟩
  | setResourceAttr key value =>
    refine ⟨(SetResourceAttr c key value).1, rfl, v,
      (SetResourceAttr c key value).1.attributes.tail, ?_, fun _ => rfl⟩
    cases value <;> simp [SetResourceAttr, hc]
  | setHeader header value => exact ⟨_, rfl, v, rest, hc, fun _ => rfl⟩
  | setUseHttpOverGrpc b => exact ⟨_, rfl, v, rest, hc, fun _ => rfl⟩
  | setOTLPEndpoint b => exact ⟨_, rfl, v, rest, hc, fun _ => rfl⟩
  | setInsecure b => exact ⟨_, rfl, v, rest, hc, fun _ => rfl⟩
  | setDisableTraces b => exact ⟨_, rfl, v, rest, hc, fun _ => rfl⟩
  | setDisableMetrics b => exact ⟨_, rfl, v, rest, hc, fun _ => rfl⟩
  | setDisableLogs b => exact ⟨_, rfl, v, rest, hc, fun _ => rfl⟩
  | setAuthorizationHeader b => exact ⟨_, rfl, v, rest, hc, fun _ => rfl⟩

theorem serviceNameFirst_runSetters (calls : List SetterCall) (c : Config) (v : AttrValue)
    (rest : List AttrKeyValue) (hc : c.attributes = ⟨"service.name", v⟩ :: rest) :
    ∃ c1, runSetters calls c = Except.ok c1 ∧
      ∃ v1 rest1, c1.attributes = ⟨"service.name", v1⟩ :: rest1 ∧
        ((∀ call ∈ calls, call.isSetServiceName = false) → v1 = v) := by
  induction calls generalizing c v rest with
  | nil => exact ⟨c, rfl, v, rest, hc, fun _ => rfl⟩
  | cons call tail ih =>
    obtain ⟨c1, h1, v1, rest1, hc1, hv1⟩ := serviceNameFirst_run c call v rest hc
    obtain ⟨c2, h2, v2, rest2, hc2, hv2⟩ := ih c1 v1 rest1 hc1
    refine ⟨c2, by simp [runSetters, h1, h2], v2, rest2, hc2, ?_⟩
    intro hall
    rw [hv2 (fun call' hm => hall call' (List.mem_cons_of_mem _ hm)),
      hv1 (hall call (List.mem_cons_self _ _))]

theorem runSetters_append (xs ys : List SetterCall) (c c1 : Config)
    (h : runSetters xs c = Except.ok c1) :
    runSetters (xs ++ ys) c = runSetters ys c1 := by
  induction xs generalizing c with
  | nil => simp only [runSetters, Except.ok.injEq] at h; subst h; rfl
  | cons call tail ih =>
    simp only [List.cons_append, runSetters] at h ⊢
    cases hr : call.run c with
    | error p => rw [hr] at h; cases h
    | ok c2 => rw [hr] at h; exact ih c2 h

/-- C13: SetResourceAttr returns the Config it was called on, changed thus: a
string, an int or a float64 value appends exactly the attribute (key, value) of
that type at the end of the resource attributes, every earlier entry and every
other field as before; a value of any other type leaves the Config as it was,
and the call returns normally (it only logs a warning). -/
theorem SetResourceAttr_spec (c : Config) (key : String) (value : AnyValue) :
    (∀ s, value = AnyValue.string s →
      (SetResourceAttr c key value).1 =
        { c with attributes := c.attributes ++ [⟨key, AttrValue.string s⟩] }) ∧
    (∀ i, value = AnyValue.int i →
      (SetResourceAttr c key value).1 =
        { c with attributes := c.attributes ++ [⟨key, AttrValue.int i⟩] }) ∧
    (∀ f, value = AnyValue.float64 f →
      (SetResourceAttr c key value).1 =
        { c with attributes := c.attributes ++ [⟨key, AttrValue.float64 f⟩] }) ∧
    ((∀ s, value ≠ AnyValue.string s) → (∀ i, value ≠ AnyValue.int i) →
      (∀ f, value ≠ AnyValue.float64 f) →
      SetResourceAttr c key value =
        (c, [Event.slogWarn "resource attributes should be of type string or int"])) := by
  refine ⟨?_, ?_, ?_, ?_⟩
  · rintro s rfl; rfl
  · rintro i rfl; rfl
  · rintro f rfl; rfl
  · intro h1 h2 h3
    cases value with
    | string s => exact absurd rfl (h1 s)
    | int i => exact absurd rfl (h2 i)
    | float64 f => exact absurd rfl (h3 f)
    | bool b => rfl
    | int64 i => rfl
    | float32 f => rfl
    | nil => rfl
    | other t => rfl

/-- C13 witness: on the default Config an int value is appended as the third
attribute, and a bool, an int64, a float32 and nil change nothing. -/
theorem SetResourceAttr_spec_witness :
    (SetResourceAttr NewConfig "replicas" (AnyValue.int 3)).1.attributes =
      [⟨"service.name", AttrValue.string "example-service"⟩,
       ⟨"library.language", AttrValue.string "go"⟩, ⟨"replicas", AttrValue.int 3⟩] ∧
    (SetResourceAttr NewConfig "flag" (AnyValue.bool true)).1 = NewConfig ∧
    (SetResourceAttr NewConfig "n" (AnyValue.int64 3)).1 = NewConfig ∧
    (SetResourceAttr NewConfig "x" (AnyValue.float32 (Float64.finite 1))).1 = NewConfig ∧
    (SetResourceAttr NewConfig "z" AnyValue.nil).1 = NewConfig := by
  refine ⟨?_, ?_, ?_, ?_, ?_⟩
  · rw [(SetResourceAttr_spec NewConfig "replicas" (AnyValue.int 3)).2.1 3 rfl]
    rfl
  · rw [(SetResourceAttr_spec NewConfig "flag" (AnyValue.bool true)).2.2.2
      (by simp) (by simp) (by simp)]
  · rw [(SetResourceAttr_spec NewConfig "n" (AnyValue.int64 3)).2.2.2
      (by simp) (by simp) (by simp)]
  · rw [(SetResourceAttr_spec NewConfig "x" (AnyValue.float32 (Float64.finite 1))).2.2.2
      (by simp) (by simp) (by simp)]
  · rw [(SetResourceAttr_spec NewConfig "z" AnyValue.nil).2.2.2
      (by simp) (by simp) (by simp)]

/-- C14: every finite chain of setter calls on the result of NewConfig runs to
the end without a panic and leaves a resource-attribute list that is not empty
and whose element 0 is keyed service.name; and when the chain contains
SetServiceName(n) followed only by calls of other setters, element 0 is
service.name = n. -/
theorem serviceName_reserved_slot :
    (∀ calls : List SetterCall, ∃ c v rest, runSetters calls NewConfig = Except.ok c ∧
      c.attributes = ⟨"service.name", v⟩ :: rest ∧
      c.attributes.head? = some ⟨"service.name", v⟩) ∧
    (∀ (before after : List SetterCall) (n : String),
      (∀ call ∈ after, call.isSetServiceName = false) →
      ∃ c rest, runSetters (before ++ SetterCall.setServiceName n :: after) NewConfig = Except.ok c ∧
        c.attributes = ⟨"service.name", AttrValue.string n⟩ :: rest) := by
  refine ⟨?_, ?_⟩
  · intro calls
    obtain ⟨c, h, v, rest, hc, _⟩ := serviceNameFirst_runSetters calls NewConfig _ _ rfl
    exact ⟨c, v, rest, h, hc, by rw [hc]; rfl⟩
  · intro before after n hafter
    obtain ⟨c0, h0, v0, rest0, hc0, _⟩ := serviceNameFirst_runSetters before NewConfig _ _ rfl
    rw [runSetters_append before _ NewConfig c0 h0]
    have h1 : (SetterCall.setServiceName n).run c0 =
        Except.ok { c0 with attributes := ⟨"service.name", AttrValue.string n⟩ :: rest0 } := by
      simp [SetterCall.run, SetServiceName, hc0]
    obtain ⟨c2, h2, v2, rest2, hc2, hv2⟩ := serviceNameFirst_runSetters after
      { c0 with attributes := ⟨"service.name", AttrValue.string n⟩ :: rest0 }
      (AttrValue.string n) rest0 rfl
    refine ⟨c2, rest2, by simp [runSetters, h1, h2], ?_⟩
    rw [hc2, hv2 hafter]

/-- C14 witness: NewConfig().SetServiceName("svc-a") followed by a header, a
resource attribute and a disable flag has service.name = svc-a at index 0. -/
theorem serviceName_reserved_slot_witness :
    ∃ c rest, runSetters ([] ++ SetterCall.setServiceName "svc-a" ::
        [SetterCall.setHeader "authorization" "testauth",
          SetterCall.setResourceAttr "replicas" (AnyValue.int 3),
          SetterCall.setDisableLogs true]) NewConfig = Except.ok c ∧
      c.attributes = ⟨"service.name", AttrValue.string "svc-a"⟩ :: rest :=
  serviceName_reserved_slot.2 [] _ "svc-a" (by decide)


/-! ## Exporter options: claims -/

theorem httpOptions_common (cfg : Config) (opts : List ExporterOption)
    (h : opts ∈ [newHTTPTraceExporterOptions cfg, httpLogExporterOptions cfg,
      httpMetricExporterOptions cfg]) :
    ExporterOption.withEndpointURL cfg.oTLPEndpoint ∈ opts ∧
    ExporterOption.withCompressionGzip ∈ opts ∧
    ((∃ hs, ExporterOption.withHeaders hs ∈ opts) ↔ cfg.headers ≠ []) ∧
    (∀ hs, ExporterOption.withHeaders hs ∈ opts → hs = cfg.headers) ∧
    (ExporterOption.withInsecure ∈ opts ↔ cfg.insecure = true) := by
  simp only [List.mem_cons, List.mem_singleton, List.not_mem_nil, or_false] at h
  rcases h with h | h | h <;> subst h <;>
    cases hi : cfg.insecure <;> cases hh : cfg.headers <;>
    simp [newHTTPTraceExporterOptions, httpLogExporterOptions, httpMetricExporterOptions, hi, hh]

/-- C15: for every Config the option lists of the three HTTP exporter
constructors each hold the endpoint option for cfg.oTLPEndpoint and the gzip
compression option, a headers option exactly when the header map is not empty
(and then the header map itself), and the insecure option exactly when
cfg.insecure is set; the log and metric lists hold the URL-path options /v1/logs
and /v1/metrics, but the list of newHTTPTraceExporter holds no URL-path option
at all. -/
theorem http_exporter_options (cfg : Config) :
    (∀ opts ∈ [newHTTPTraceExporterOptions cfg, httpLogExporterOptions cfg,
        httpMetricExporterOptions cfg],
      ExporterOption.withEndpointURL cfg.oTLPEndpoint ∈ opts ∧
      ExporterOption.withCompressionGzip ∈ opts ∧
      ((∃ hs, ExporterOption.withHeaders hs ∈ opts) ↔ cfg.headers ≠ []) ∧
      (∀ hs, ExporterOption.withHeaders hs ∈ opts → hs = cfg.headers) ∧
      (ExporterOption.withInsecure ∈ opts ↔ cfg.insecure = true)) ∧
    ExporterOption.withURLPath "/v1/logs" ∈ httpLogExporterOptions cfg ∧
    ExporterOption.withURLPath "/v1/metrics" ∈ httpMetricExporterOptions cfg ∧
    (∀ path, ExporterOption.withURLPath path ∉ newHTTPTraceExporterOptions cfg) := by
  refine ⟨fun opts h => httpOptions_common cfg opts h, ?_, ?_, ?_⟩
  · cases hi : cfg.insecure <;> cases hh : cfg.headers <;> simp [httpLogExporterOptions, hi, hh]
  · cases hi : cfg.insecure <;> cases hh : cfg.headers <;> simp [httpMetricExporterOptions, hi, hh]
  · intro path
    cases hi : cfg.insecure <;> cases hh : cfg.headers <;> simp [newHTTPTraceExporterOptions, hi, hh]

/-- C17: SetAuthorizationHeader changes the field authorizationHeader and
nothing else; in particular the header map is as before, the option lists of the
six exporter constructors are as before, and Init behaves on the new Config as
on the old one, whatever the outside world answers. -/
theorem SetAuthorizationHeader_frame (c : Config) (h : String) :
    SetAuthorizationHeader c h = { c with authorizationHeader := h } ∧
    (SetAuthorizationHeader c h).headers = c.headers ∧
    newHTTPTraceExporterOptions (SetAuthorizationHeader c h) = newHTTPTraceExporterOptions c ∧
    newGRPCTraceExporterOptions (SetAuthorizationHeader c h) = newGRPCTraceExporterOptions c ∧
    httpLogExporterOptions (SetAuthorizationHeader c h) = httpLogExporterOptions c ∧
    grpcLogExporterOptions (SetAuthorizationHeader c h) = grpcLogExporterOptions c ∧
    httpMetricExporterOptions (SetAuthorizationHeader c h) = httpMetricExporterOptions c ∧
    grpcMetricExporterOptions (SetAuthorizationHeader c h) = grpcMetricExporterOptions c ∧
    (∀ hs, ExporterOption.withHeaders hs ∈
        newHTTPTraceExporterOptions (SetAuthorizationHeader c h) ++
        newGRPCTraceExporterOptions (SetAuthorizationHeader c h) ++
        httpLogExporterOptions (SetAuthorizationHeader c h) ++
        grpcLogExporterOptions (SetAuthorizationHeader c h) ++
        httpMetricExporterOptions (SetAuthorizationHeader c h) ++
        grpcMetricExporterOptions (SetAuthorizationHeader c h) → hs = c.headers) ∧
    (∀ env : Env, Init env (some (SetAuthorizationHeader c h)) = Init env (some c)) := by
  refine ⟨rfl, rfl, rfl, rfl, rfl, rfl, rfl, rfl, ?_, fun env => rfl⟩
  intro hs
  cases hi : c.insecure <;> cases hh : c.headers <;>
    simp [SetAuthorizationHeader, newHTTPTraceExporterOptions, newGRPCTraceExporterOptions,
      httpLogExporterOptions, grpcLogExporterOptions, httpMetricExporterOptions,
      grpcMetricExporterOptions, hi, hh]

/-! ## Flattening: claim -/

mutual
theorem zerologToOtelAttr_length (arch : Float64 → Int) (key : String) :
    ∀ v : Value, (zerologToOtelAttr arch key v).length = v.leaves
  | Value.bool b => by simp [zerologToOtelAttr, Value.leaves]
  | Value.float64 f => by
    simp only [zerologToOtelAttr, Value.leaves]
    split <;> simp
  | Value.string s => by simp [zerologToOtelAttr, Value.leaves]
  | Value.other r => by simp [zerologToOtelAttr, Value.leaves]
  | Value.array vs => by
    simp only [zerologToOtelAttr, Value.leaves]
    rw [zerologToOtelAttrLoop_length arch key vs []]
    simp
theorem zerologToOtelAttrLoop_length (arch : Float64 → Int) (key : String) :
    ∀ (vs : List Value) (result : List LogKeyValue),
      (zerologToOtelAttrLoop arch key vs result).length = result.length + Value.leavesList vs
  | [], result => by simp [zerologToOtelAttrLoop, Value.leavesList]
  | v :: rest, result => by
    simp only [zerologToOtelAttrLoop, Value.leavesList]
    rw [zerologToOtelAttrLoop_length arch key rest, List.length_append,
      zerologToOtelAttr_length arch key v, Nat.add_assoc]
end

theorem leavesList_replicate_empty (n : Nat) :
    Value.leavesList (List.replicate n (Value.array [])) = 0 := by
  induction n with
  | zero => simp [Value.leavesList]
  | succ k ih => simp [List.replicate_succ, Value.leavesList, Value.leaves, ih]

/-- C16: for every key and value, zerologToOtelAttr (a total function) returns as
many pairs as the value has leaves that are not arrays, a value of any type
other than bool, float64, string and array (null, an object) being one leaf,
rendered as one string pair; an empty array and an array of any number of empty
arrays yield no pair. -/
theorem zerologToOtelAttr_counts_leaves (arch : Float64 → Int) (key : String) :
    (∀ v : Value, (zerologToOtelAttr arch key v).length = v.leaves) ∧
    (∀ rendered, zerologToOtelAttr arch key (Value.other rendered) =
      [⟨key, LogValue.string rendered⟩]) ∧
    zerologToOtelAttr arch key (Value.array []) = [] ∧
    (∀ n, zerologToOtelAttr arch key (Value.array (List.replicate n (Value.array []))) = []) := by
  refine ⟨zerologToOtelAttr_length arch key, fun r => by simp [zerologToOtelAttr], ?_, ?_⟩
  · simp [zerologToOtelAttr, zerologToOtelAttrLoop]
  · intro n
    apply List.eq_nil_of_length_eq_zero
    rw [zerologToOtelAttr_length]
    simp only [Value.leaves]
    exact leavesList_replicate_empty n


end MxlGolang
